import Mathlib

/-!
Shallow embedding of the Solar Dawn common library (Rust), covering the
axial hex coordinate engine (src/vec2.rs), the entity id allocator, the
procedural world generator (src/lib.rs), and the stack component model
(src/stack.rs, src/astronomical.rs).

Modelling conventions:
- `u64` counters are natural numbers with explicit `% 2 ^ 64` where the
  source uses wrapping arithmetic.
- `f64` values are modelled as exact real numbers (`ℝ`); `f64` literals
  that are only stored, never computed with (body radii), are `ℚ`.
- Rust `HashMap<EntityId, T>` is an association list with insert-replace
  semantics (`insertEntity`); iteration/insertion order is the list order.
- The ChaCha20 generator lives in the external `rand_chacha` crate, so the
  seeded random stream is modelled as an abstract `RandomStream`: the
  sequence of uniform angle draws and of weighted-index draws the seed
  determines.  Rust panics (assert, unwrap on the allocator, out of bounds
  indexing, the unreachable match arm) are `Option.none`.
-/

/-- Size of the u64 value space, for wrapping arithmetic. -/
def U64_SIZE : ℕ := 2 ^ 64

/-- A player ID (src/lib.rs `PlayerId`, a wrapped u8). -/
structure PlayerId where
  val : ℕ
deriving DecidableEq

/-- An entity ID (src/lib.rs `EntityId`, a wrapped u64). -/
structure EntityId where
  val : ℕ
deriving DecidableEq

/-- The entity ID generator (src/lib.rs `EntityIdGenerator`): server-side
state holding the next id to issue. -/
structure EntityIdGenerator where
  next_id : ℕ
deriving DecidableEq

/-- `EntityIdGenerator::new` starts the counter at 1. -/
def EntityIdGenerator.new : EntityIdGenerator := { next_id := 1 }

/-- `EntityIdGenerator::next` (the `Iterator` impl): issues the current
counter value unless it is 0, advancing with wrapping `+ 1`.  The mutated
generator is returned alongside the result. -/
def EntityIdGenerator.next (g : EntityIdGenerator) : Option EntityId × EntityIdGenerator :=
  if g.next_id ≠ 0 then
    (some { val := g.next_id }, { next_id := (g.next_id + 1) % U64_SIZE })
  else
    (none, g)

/-- An axial hex-grid position (src/vec2.rs `Position`). -/
structure Position where
  q : ℤ
  r : ℤ
deriving DecidableEq

/-- An axial hex-grid displacement (src/vec2.rs `Displacement`). -/
structure Displacement where
  q : ℤ
  r : ℤ
deriving DecidableEq

/-- `Position + Displacement` (src/vec2.rs `impl Add<Displacement> for Position`). -/
def Position.add (p : Position) (d : Displacement) : Position :=
  { q := p.q + d.q, r := p.r + d.r }

/-- `Displacement::norm` (src/vec2.rs): hex distance from the origin,
`(|q| + |r| + |q + r|) / 2` in u64 arithmetic. -/
def Displacement.norm (d : Displacement) : ℕ :=
  (d.q.natAbs + d.r.natAbs + (d.q + d.r).natAbs) / 2

/-- `hex_to_rect` (src/vec2.rs): axial to Cartesian,
`(sqrt 3 * q + sqrt 3 / 2 * r, 3 / 2 * r)`. -/
noncomputable def hex_to_rect (q r : ℤ) : ℝ × ℝ :=
  (Real.sqrt 3 * q + Real.sqrt 3 / 2 * r, 3 / 2 * r)

/-- `rect_to_hex` (src/vec2.rs): Cartesian to axial with cube rounding.
The fractional axial coordinates are computed exactly as the source does
(`q_frac = sqrt 3 * x - 1/3 * y`, `r_frac = 2/3 * y`), each is rounded,
and the component with the largest rounding residual is recomputed from
the other two. -/
noncomputable def rect_to_hex (x y : ℝ) : ℤ × ℤ :=
  let q_frac := Real.sqrt 3 * x - 1 / 3 * y
  let r_frac := 2 / 3 * y
  let s_frac := -q_frac - r_frac
  let q := round q_frac
  let r := round r_frac
  let s := round s_frac
  let q_diff := |q_frac - (q : ℝ)|
  let r_diff := |r_frac - (r : ℝ)|
  let s_diff := |s_frac - (s : ℝ)|
  if q_diff > r_diff ∧ q_diff > s_diff then (-r - s, r)
  else if r_diff > s_diff then (q, -q - s)
  else (q, r)

/-- `impl From<(f64, f64)> for Position` (src/vec2.rs). -/
noncomputable def Position.fromRect (v : ℝ × ℝ) : Position :=
  let coordinates := rect_to_hex v.1 v.2
  { q := coordinates.1, r := coordinates.2 }

/-- A major astronomical body (src/astronomical.rs `MajorBody`). -/
structure MajorBody where
  name : String
  id : EntityId
  position : Position
  radius : ℚ
  colour : String

/-- `MajorBody::new`: mints one id from the allocator (unwrap modelled as
`Option`). -/
def MajorBody.new (name : String) (id_generator : EntityIdGenerator) (position : Position)
    (radius : ℚ) (colour : String) : Option (MajorBody × EntityIdGenerator) :=
  match id_generator.next with
  | (some id, g) =>
    some ({ name := name, id := id, position := position, radius := radius, colour := colour }, g)
  | (none, _) => none

/-- A minor astronomical body (src/astronomical.rs `MinorBody`). -/
structure MinorBody where
  name : String
  id : EntityId
  position : Position
  radius : ℚ
  ice_abundance : ℕ
  ore_abundance : ℕ

/-- `MinorBody::new`: mints one id from the allocator. -/
def MinorBody.new (name : String) (id_generator : EntityIdGenerator) (position : Position)
    (radius : ℚ) (ice_abundance ore_abundance : ℕ) : Option (MinorBody × EntityIdGenerator) :=
  match id_generator.next with
  | (some id, g) =>
    some ({ name := name, id := id, position := position, radius := radius,
            ice_abundance := ice_abundance, ore_abundance := ore_abundance }, g)
  | (none, _) => none

/-- A fuel tank component (src/stack.rs `FuelTank`). -/
structure FuelTank where
  id : EntityId
  damaged : Bool
  fuel : ℕ

/-- `FuelTank::new`: undamaged, empty. -/
def FuelTank.new (id_generator : EntityIdGenerator) : Option (FuelTank × EntityIdGenerator) :=
  match id_generator.next with
  | (some id, g) => some ({ id := id, damaged := false, fuel := 0 }, g)
  | (none, _) => none

/-- A cargo inventory (src/stack.rs `CargoList`). -/
structure CargoList where
  ice : ℕ
  ore : ℕ
  materials : ℕ
  warheads : ℕ
deriving DecidableEq

/-- `CargoList::new`. -/
def CargoList.new (ice ore materials warheads : ℕ) : CargoList :=
  { ice := ice, ore := ore, materials := materials, warheads := warheads }

/-- A cargo hold component (src/stack.rs `CargoHold`). -/
structure CargoHold where
  id : EntityId
  damaged : Bool
  inventory : CargoList

/-- `CargoHold::new`: undamaged, all-zero inventory. -/
def CargoHold.new (id_generator : EntityIdGenerator) : Option (CargoHold × EntityIdGenerator) :=
  match id_generator.next with
  | (some id, g) =>
    some ({ id := id, damaged := false, inventory := CargoList.new 0 0 0 0 }, g)
  | (none, _) => none

/-- An engine component (src/stack.rs `Engine`). -/
structure Engine where
  id : EntityId
  damaged : Bool

/-- A gun component (src/stack.rs `Gun`). -/
structure Gun where
  id : EntityId
  damaged : Bool

/-- A warhead mount component (src/stack.rs `WarheadMount`). -/
structure WarheadMount where
  id : EntityId
  damaged : Bool
  loaded : Bool

/-- A habitat component (src/stack.rs `Habitat`). -/
structure Habitat where
  id : EntityId
  damaged : Bool
  owner : PlayerId

/-- `Habitat::new`: undamaged, owned by the given player. -/
def Habitat.new (id_generator : EntityIdGenerator) (owner : PlayerId) :
    Option (Habitat × EntityIdGenerator) :=
  match id_generator.next with
  | (some id, g) => some ({ id := id, damaged := false, owner := owner }, g)
  | (none, _) => none

/-- A miner component (src/stack.rs `Miner`). -/
structure Miner where
  id : EntityId
  damaged : Bool

/-- A factory component (src/stack.rs `Factory`). -/
structure Factory where
  id : EntityId
  damaged : Bool

/-- `Factory::new`: undamaged. -/
def Factory.new (id_generator : EntityIdGenerator) : Option (Factory × EntityIdGenerator) :=
  match id_generator.next with
  | (some id, g) => some ({ id := id, damaged := false }, g)
  | (none, _) => none

/-- An armour plate component (src/stack.rs `ArmourPlate`). -/
structure ArmourPlate where
  id : EntityId
  damaged : Bool

/-- A warhead in flight (src/stack.rs `Warhead`). -/
structure Warhead where
  id : EntityId
  position : Position
  velocity : Displacement
  owner : PlayerId

/-- `HashMap::insert` on the association-list model: replaces the value of
an existing key, otherwise appends the new entry. -/
def insertEntity {α : Type} (m : List (EntityId × α)) (k : EntityId) (v : α) :
    List (EntityId × α) :=
  if k ∈ m.map Prod.fst then m.map (fun p => if p.1 = k then (k, v) else p)
  else m ++ [(k, v)]

/-- A stack (src/stack.rs `Stack`): a player-owned aggregate of components. -/
structure Stack where
  name : String
  id : EntityId
  position : Position
  velocity : Displacement
  owner : PlayerId
  fuel_tanks : List (EntityId × FuelTank)
  cargo_holds : List (EntityId × CargoHold)
  engines : List (EntityId × Engine)
  guns : List (EntityId × Gun)
  launch_clamps : List (EntityId × WarheadMount)
  habitats : List (EntityId × Habitat)
  miners : List (EntityId × Miner)
  factories : List (EntityId × Factory)
  armour_plates : List (EntityId × ArmourPlate)

/-- `Stack::new`: mints the stack id, all component collections empty. -/
def Stack.new (name : String) (id_generator : EntityIdGenerator) (position : Position)
    (velocity : Displacement) (owner : PlayerId) : Option (Stack × EntityIdGenerator) :=
  match id_generator.next with
  | (some id, g) =>
    some ({ name := name, id := id, position := position, velocity := velocity, owner := owner,
            fuel_tanks := [], cargo_holds := [], engines := [], guns := [], launch_clamps := [],
            habitats := [], miners := [], factories := [], armour_plates := [] }, g)
  | (none, _) => none

/-- The turn phase (src/lib.rs `Phase`). -/
inductive Phase where
  | economic
  | ordnance
  | combat
  | movement
deriving DecidableEq

/-- The game state (src/lib.rs `GameState`). -/
structure GameState where
  major_bodies : List (EntityId × MajorBody)
  minor_bodies : List (EntityId × MinorBody)
  stacks' : List (EntityId × Stack)
  warheads : List (EntityId × Warhead)
  phase : Phase

/-- The abstract seeded random stream: the sequence of `Uniform(0, TAU)`
angle draws and of `WeightedIndex([7,6,5,4,3,2,1])` index draws that
`ChaCha20Rng::from_seed(seed)` determines.  The crate that turns the seed
bytes into these sequences is outside this repository. -/
structure RandomStream where
  angleAt : ℕ → ℝ
  resourceAt : ℕ → Fin 7

/-- `resource_values` (src/lib.rs): the abundance outcome table. -/
def resource_values : List ℕ := [0, 1, 2, 3, 4, 5, 6]

/-- The abundance value of the i-th weighted-index draw:
`resource_values[resource_index_distribution.sample(..)]`. -/
def RandomStream.resourceValueAt (s : RandomStream) (i : ℕ) : ℕ :=
  resource_values.get ⟨(s.resourceAt i).val, by simp [resource_values]⟩

/-- The in-flight random generator: the stream plus cursors for how many
draws of each kind have been consumed. -/
structure Rng where
  stream : RandomStream
  angleIdx : ℕ
  resourceIdx : ℕ

/-- `angle_distribution.sample(&mut rng)`: consume one angle draw. -/
def Rng.sampleAngle (r : Rng) : ℝ × Rng :=
  (r.stream.angleAt r.angleIdx, { r with angleIdx := r.angleIdx + 1 })

/-- `resource_values[resource_index_distribution.sample(&mut rng)]`:
consume one weighted-index draw and look up the abundance table. -/
def Rng.sampleResource (r : Rng) : ℕ × Rng :=
  (r.stream.resourceValueAt r.resourceIdx, { r with resourceIdx := r.resourceIdx + 1 })

/-- The asteroid designation generator (src/lib.rs `AsteroidNameGenerator`):
a fixed-step walk modulo 60000, offset by 10000. -/
structure AsteroidNameGenerator where
  last : ℕ

/-- `AsteroidNameGenerator::STEP`. -/
def AsteroidNameGenerator.STEP : ℕ := 13121

/-- `AsteroidNameGenerator::next`. -/
def AsteroidNameGenerator.next (a : AsteroidNameGenerator) : String × AsteroidNameGenerator :=
  let last := (a.last + AsteroidNameGenerator.STEP) % 60000
  (toString (last + 10000), { last := last })

/-- Option-valued left fold: runs the loop body over the item list,
propagating the first failure (a Rust panic inside a `for` loop). -/
def foldOpt {σ α : Type} (f : σ → α → Option σ) : σ → List α → Option σ
  | s, [] => some s
  | s, a :: t =>
    match f s a with
    | some s' => foldOpt f s' t
    | none => none

/-- The inclusive integer range `lo..=hi` as a list. -/
def intRange (lo hi : ℤ) : List ℤ :=
  (List.range (hi + 1 - lo).toNat).map (fun i : ℕ => lo + (i : ℤ))

/-- The main-belt enumeration order (src/lib.rs lines 245-246):
`for q in -36..=36 { for r in max(-36, -q-36)..=min(36, -q+36) }`. -/
def beltCells : List (ℤ × ℤ) :=
  (intRange (-36) 36).flatMap (fun q =>
    (intRange (max (-36) (-q - 36)) (min 36 (-q + 36))).map (fun r => (q, r)))

/-- The co-orbital cluster enumeration order (src/lib.rs):
`for distance in lo..=hi { for step in -15..=15 }`. -/
def clusterCands (lo hi : ℤ) : List (ℤ × ℤ) :=
  (intRange lo hi).flatMap (fun distance =>
    (intRange (-15) 15).map (fun step => (distance, step)))

/-- The loop state shared by the main-belt and cluster loops: the random
generator, the name generator, the id allocator and the minor-body map. -/
structure BeltState where
  rng : Rng
  ang : AsteroidNameGenerator
  gen : EntityIdGenerator
  minor_bodies : List (EntityId × MinorBody)

/-- One iteration of the main-belt loop body (src/lib.rs lines 246-264):
skip cells closer than hex distance 29 (before consuming any draws),
sample both abundances, skip when both are zero, otherwise emit the
asteroid at the lattice cell. -/
def beltStep (s : BeltState) (cell : ℤ × ℤ) : Option BeltState :=
  if (cell.1.natAbs + cell.2.natAbs + (cell.1 + cell.2).natAbs) / 2 < 29 then some s
  else
    let (ice_abundance, rng) := s.rng.sampleResource
    let (ore_abundance, rng) := rng.sampleResource
    if ice_abundance = 0 ∧ ore_abundance = 0 then some { s with rng := rng }
    else
      let (name, ang) := s.ang.next
      match MinorBody.new name s.gen { q := cell.1, r := cell.2 } (2 / 10)
          ice_abundance ore_abundance with
      | some (asteroid, gen) =>
        some { rng := rng, ang := ang, gen := gen,
               minor_bodies := insertEntity s.minor_bodies asteroid.id asteroid }
      | none => none

/-- The main-belt loop (src/lib.rs lines 245-265). -/
def mainBelt (s : BeltState) : Option BeltState :=
  foldOpt beltStep s beltCells

/-- One iteration of a co-orbital cluster loop body (src/lib.rs lines
268-361): sample both abundances first, skip when both are zero, place at
`distance` from the origin at `jupiter_angle + step degrees + offset`,
skip when any already-placed minor body occupies the cell. -/
noncomputable def clusterStep (jupiter_angle offset : ℝ) (s : BeltState) (cand : ℤ × ℤ) :
    Option BeltState :=
  let (ice_abundance, rng) := s.rng.sampleResource
  let (ore_abundance, rng) := rng.sampleResource
  if ice_abundance = 0 ∧ ore_abundance = 0 then some { s with rng := rng }
  else
    let angle_delta := (cand.2 : ℝ) / 180 * Real.pi
    let angle := jupiter_angle + angle_delta + offset
    let position := Position.fromRect ((cand.1 : ℝ) * Real.cos angle, (cand.1 : ℝ) * Real.sin angle)
    if s.minor_bodies.any (fun e => e.2.position == position) then some { s with rng := rng }
    else
      let (name, ang) := s.ang.next
      match MinorBody.new name s.gen position (2 / 10) ice_abundance ore_abundance with
      | some (asteroid, gen) =>
        some { rng := rng, ang := ang, gen := gen,
               minor_bodies := insertEntity s.minor_bodies asteroid.id asteroid }
      | none => none

/-- The Trojan cluster loop: distances 38-42, offset +60 degrees. -/
noncomputable def trojans (jupiter_angle : ℝ) (s : BeltState) : Option BeltState :=
  foldOpt (clusterStep jupiter_angle (Real.pi / 3)) s (clusterCands 38 42)

/-- The Greek cluster loop: distances 38-42, offset -60 degrees. -/
noncomputable def greeks (jupiter_angle : ℝ) (s : BeltState) : Option BeltState :=
  foldOpt (clusterStep jupiter_angle (-(Real.pi / 3))) s (clusterCands 38 42)

/-- The Hilda cluster loop: distances 32..38 (exclusive upper bound in the
source, so 32-37), offset 180 degrees. -/
noncomputable def hildas (jupiter_angle : ℝ) (s : BeltState) : Option BeltState :=
  foldOpt (clusterStep jupiter_angle Real.pi) s (clusterCands 32 37)

/-- Terra is placed at `(16.0, 0.0).into()` (src/lib.rs line 144). -/
noncomputable def terra_position : Position :=
  Position.fromRect (16, 0)

/-- The output of the straight-line body-placement section of
`GameState::new` (major bodies, Phobos and Deimos). -/
structure BodiesOut where
  major_bodies : List (EntityId × MajorBody)
  minor_bodies : List (EntityId × MinorBody)
  terra_position : Position
  jupiter_angle : ℝ
  rng : Rng
  gen : EntityIdGenerator

/-- The inner-planet section of `GameState::new` (src/lib.rs lines
102-155): Sol, Mercury, Venus, Terra and Luna, in source order, with the
source angle draws.  Returns the major-body map so far, the Terra
position, and the advanced random generator and allocator. -/
noncomputable def genInnerPlanets (rng : Rng) (id_generator : EntityIdGenerator) :
    Option (List (EntityId × MajorBody) × Position × Rng × EntityIdGenerator) := do
  let (sol, g) ← MajorBody.new "Sol" id_generator { q := 0, r := 0 } (8 / 10) "#ffff00"
  let major_bodies := insertEntity ([] : List (EntityId × MajorBody)) sol.id sol
  let (mercury_angle, rng) := rng.sampleAngle
  let (mercury, g) ← MajorBody.new "Mercury" g
    (Position.fromRect (6 * Real.cos mercury_angle, 6 * Real.sin mercury_angle)) (3 / 10) "#404040"
  let major_bodies := insertEntity major_bodies mercury.id mercury
  let (venus_angle, rng) := rng.sampleAngle
  let (venus, g) ← MajorBody.new "Venus" g
    (Position.fromRect (12 * Real.cos venus_angle, 12 * Real.sin venus_angle)) (6 / 10) "#ffc000"
  let major_bodies := insertEntity major_bodies venus.id venus
  let (terra, g) ← MajorBody.new "Terra" g terra_position (6 / 10) "#0000ff"
  let (luna, g) ← MajorBody.new "Luna" g (terra.position.add { q := 3, r := 2 }) (4 / 10) "#808080"
  let terra_pos := terra.position
  let major_bodies := insertEntity major_bodies terra.id terra
  let major_bodies := insertEntity major_bodies luna.id luna
  some (major_bodies, terra_pos, rng, g)

/-- The outer-planet section of `GameState::new` (src/lib.rs lines
156-201): Mars, then Jupiter with Europa, Callisto and Ganymede, in source
order.  Returns the updated major-body map, the Mars position, the
retained Jupiter angle, and the advanced random generator and allocator. -/
noncomputable def genOuterPlanets (major_bodies : List (EntityId × MajorBody)) (rng : Rng)
    (g : EntityIdGenerator) :
    Option (List (EntityId × MajorBody) × Position × ℝ × Rng × EntityIdGenerator) := do
  let (mars_angle, rng) := rng.sampleAngle
  let (mars, g) ← MajorBody.new "Mars" g
    (Position.fromRect (24 * Real.cos mars_angle, 24 * Real.sin mars_angle)) (5 / 10) "#ff0000"
  let mars_position := mars.position
  let major_bodies := insertEntity major_bodies mars.id mars
  let (jupiter_angle, rng) := rng.sampleAngle
  let (jupiter, g) ← MajorBody.new "Jupiter" g
    (Position.fromRect (40 * Real.cos jupiter_angle, 40 * Real.sin jupiter_angle)) (8 / 10)
    "#ffc000"
  let (europa, g) ← MajorBody.new "Europa" g (jupiter.position.add { q := 0, r := 3 }) (3 / 10)
    "#a0a0ff"
  let (callisto, g) ← MajorBody.new "Callisto" g (jupiter.position.add { q := -4, r := 0 }) (3 / 10)
    "#404040"
  let (ganymede, g) ← MajorBody.new "Ganymede" g (jupiter.position.add { q := 4, r := -2 }) (3 / 10)
    "#404040"
  let major_bodies := insertEntity major_bodies jupiter.id jupiter
  let major_bodies := insertEntity major_bodies europa.id europa
  let major_bodies := insertEntity major_bodies callisto.id callisto
  let major_bodies := insertEntity major_bodies ganymede.id ganymede
  some (major_bodies, mars_position, jupiter_angle, rng, g)

/-- The fixed inner moons of `GameState::new` (src/lib.rs lines 205-223):
Phobos and Deimos at fixed displacements from Mars, each with ice 1 and
ore 0, starting the minor-body map. -/
def genMoons (mars_position : Position) (g : EntityIdGenerator) :
    Option (List (EntityId × MinorBody) × EntityIdGenerator) := do
  let (phobos, g) ← MinorBody.new "Phobos" g (mars_position.add { q := 0, r := -2 }) (2 / 10) 1 0
  let (deimos, g) ← MinorBody.new "Deimos" g (mars_position.add { q := 3, r := 0 }) (2 / 10) 1 0
  let minor_bodies := insertEntity ([] : List (EntityId × MinorBody)) phobos.id phobos
  let minor_bodies := insertEntity minor_bodies deimos.id deimos
  some (minor_bodies, g)

/-- The straight-line body placement of `GameState::new` (src/lib.rs lines
102-223): the inner planets, the outer planets, then Phobos and Deimos,
in source order. -/
noncomputable def genBodies (stream : RandomStream) (id_generator : EntityIdGenerator) :
    Option BodiesOut := do
  let rng : Rng := { stream := stream, angleIdx := 0, resourceIdx := 0 }
  let (major_bodies, terra_pos, rng, g) ← genInnerPlanets rng id_generator
  let (major_bodies, mars_position, jupiter_angle, rng, g) ← genOuterPlanets major_bodies rng g
  let (minor_bodies, g) ← genMoons mars_position g
  some { major_bodies := major_bodies, minor_bodies := minor_bodies,
         terra_position := terra_pos, jupiter_angle := jupiter_angle, rng := rng, gen := g }

/-- `STARTING_STATION_NAMES` (src/lib.rs lines 364-371). -/
def STARTING_STATION_NAMES : List String :=
  [ "Space Station Freedom", "Mir", "Tiangong", "Bharatiya Antariksha Station",
    "Tokyo Gateway", "Berlin Highport" ]

/-- `starting_station_orbital_elements` (src/lib.rs lines 372-455): the
per-player-count table of (home offset, velocity) pairs; any other player
count hits the `panic!` arm, modelled as `none`. -/
def starting_station_orbital_elements (num_players : ℕ) :
    Option (List (Displacement × Displacement)) :=
  match num_players with
  | 2 => some
    [ ({ q := 0, r := -1 }, { q := 1, r := 1 }),
      ({ q := 0, r := 1 }, { q := -1, r := -1 }) ]
  | 3 => some
    [ ({ q := 0, r := -1 }, { q := 1, r := 1 }),
      ({ q := 1, r := 1 }, { q := -1, r := 0 }),
      ({ q := -1, r := 0 }, { q := 0, r := -1 }) ]
  | 4 => some
    [ ({ q := 0, r := -1 }, { q := 1, r := 1 }),
      ({ q := 1, r := 0 }, { q := 0, r := 1 }),
      ({ q := 0, r := 1 }, { q := -1, r := -1 }),
      ({ q := -1, r := 0 }, { q := 0, r := -1 }) ]
  | 5 => some
    [ ({ q := 0, r := -1 }, { q := 1, r := 1 }),
      ({ q := 1, r := 0 }, { q := 0, r := 1 }),
      ({ q := 1, r := 1 }, { q := -1, r := 0 }),
      ({ q := 0, r := 1 }, { q := -1, r := -1 }),
      ({ q := -1, r := 0 }, { q := 0, r := -1 }) ]
  | 6 => some
    [ ({ q := 0, r := -1 }, { q := 1, r := 1 }),
      ({ q := 1, r := 0 }, { q := 0, r := 1 }),
      ({ q := 1, r := 1 }, { q := -1, r := 0 }),
      ({ q := 0, r := 1 }, { q := -1, r := -1 }),
      ({ q := -1, r := 0 }, { q := 0, r := -1 }),
      ({ q := -1, r := -1 }, { q := 1, r := 0 }) ]
  | _ => none

/-- The state of the starting-station loop: the allocator and the stacks
map built so far. -/
structure StacksState where
  gen : EntityIdGenerator
  stacks' : List (EntityId × Stack)

/-- One iteration of the starting-station loop (src/lib.rs lines 456-489):
build the station stack for one player and populate it with one factory,
one habitat, two fuel tanks at 20 fuel, three cargo holds at 20 materials,
in source order. -/
def stationStep (terra_pos : Position) (els : List (Displacement × Displacement))
    (s : StacksState) (player : ℕ) : Option StacksState := do
  let name ← STARTING_STATION_NAMES.get? player
  let pair ← els.get? player
  let (station, g) ← Stack.new name s.gen (terra_pos.add pair.1) pair.2 { val := player }
  let (factory, g) ← Factory.new g
  let station := { station with factories := insertEntity station.factories factory.id factory }
  let (habitat, g) ← Habitat.new g { val := player }
  let station := { station with habitats := insertEntity station.habitats habitat.id habitat }
  let (fuel_tank, g) ← FuelTank.new g
  let fuel_tank := { fuel_tank with fuel := 20 }
  let station := { station with
    fuel_tanks := insertEntity station.fuel_tanks fuel_tank.id fuel_tank }
  let (fuel_tank, g) ← FuelTank.new g
  let fuel_tank := { fuel_tank with fuel := 20 }
  let station := { station with
    fuel_tanks := insertEntity station.fuel_tanks fuel_tank.id fuel_tank }
  let (cargo_hold, g) ← CargoHold.new g
  let cargo_hold := { cargo_hold with inventory := { cargo_hold.inventory with materials := 20 } }
  let station := { station with
    cargo_holds := insertEntity station.cargo_holds cargo_hold.id cargo_hold }
  let (cargo_hold, g) ← CargoHold.new g
  let cargo_hold := { cargo_hold with inventory := { cargo_hold.inventory with materials := 20 } }
  let station := { station with
    cargo_holds := insertEntity station.cargo_holds cargo_hold.id cargo_hold }
  let (cargo_hold, g) ← CargoHold.new g
  let cargo_hold := { cargo_hold with inventory := { cargo_hold.inventory with materials := 20 } }
  let station := { station with
    cargo_holds := insertEntity station.cargo_holds cargo_hold.id cargo_hold }
  some { gen := g, stacks' := insertEntity s.stacks' station.id station }

/-- The starting-station loop (src/lib.rs `for player in 0..num_players`). -/
def genStacks (terra_pos : Position) (els : List (Displacement × Displacement))
    (num_players : ℕ) (g : EntityIdGenerator) : Option StacksState :=
  foldOpt (stationStep terra_pos els) { gen := g, stacks' := [] } (List.range num_players)

/-- `GameState::new` (src/lib.rs lines 86-498): the whole generator.  The
leading `assert!((2..=6).contains(&num_players))` is the `if`; every panic
on the success path (allocator unwrap, table indexing, the unreachable
match arm) is `none`.  The mutated caller-owned allocator is returned with
the snapshot. -/
noncomputable def GameState.new (stream : RandomStream) (num_players : ℕ)
    (id_generator : EntityIdGenerator) : Option (GameState × EntityIdGenerator) :=
  if 2 ≤ num_players ∧ num_players ≤ 6 then do
    let out ← genBodies stream id_generator
    let s1 ← mainBelt
      { rng := out.rng, ang := { last := 0 }, gen := out.gen, minor_bodies := out.minor_bodies }
    let s2 ← trojans out.jupiter_angle s1
    let s3 ← greeks out.jupiter_angle s2
    let s4 ← hildas out.jupiter_angle s3
    let els ← starting_station_orbital_elements num_players
    let s5 ← genStacks out.terra_position els num_players s4.gen
    some ({ major_bodies := out.major_bodies, minor_bodies := s4.minor_bodies,
            stacks' := s5.stacks', warheads := [], phase := Phase.economic }, s5.gen)
  else none

/-- All entity ids held by one stack, in allocation order for generated
stations: the stack id, then the component ids grouped by collection. -/
def Stack.allIds (st : Stack) : List ℕ :=
  st.id.val ::
    (st.factories.map (fun e => e.2.id.val) ++ st.habitats.map (fun e => e.2.id.val) ++
     st.fuel_tanks.map (fun e => e.2.id.val) ++ st.cargo_holds.map (fun e => e.2.id.val) ++
     st.engines.map (fun e => e.2.id.val) ++ st.guns.map (fun e => e.2.id.val) ++
     st.launch_clamps.map (fun e => e.2.id.val) ++ st.miners.map (fun e => e.2.id.val) ++
     st.armour_plates.map (fun e => e.2.id.val))

/-- Every entity id appearing in a snapshot: major bodies, minor bodies,
stacks with all their components, and warheads. -/
def GameState.allIds (st : GameState) : List ℕ :=
  st.major_bodies.map (fun e => e.2.id.val) ++ st.minor_bodies.map (fun e => e.2.id.val) ++
    st.stacks'.flatMap (fun e => e.2.allIds) ++ st.warheads.map (fun e => e.2.id.val)

/-- The generator state after k calls to `next` (results discarded). -/
def EntityIdGenerator.after (g : EntityIdGenerator) : ℕ → EntityIdGenerator
  | 0 => g
  | k + 1 => (g.next.2).after k

/-- The result of the n-th call to `next` on `g`, counting calls from 1. -/
def EntityIdGenerator.nthCall (g : EntityIdGenerator) (n : ℕ) : Option EntityId :=
  ((g.after (n - 1)).next).1

/-- A concrete random stream for witness instantiations: every angle draw
is 0, every weighted-index draw is index 1. -/
def constStream : RandomStream :=
  { angleAt := fun _ => 0, resourceAt := fun _ => 1 }

/-- The random stream exhibiting the duplicate-position failure: every
angle draw is pi divided by 3 (in particular the Mars angle), and every
weighted-index draw is index 1, so both abundances of every candidate are
1 and no candidate is skipped for zero abundance. -/
noncomputable def dupStream : RandomStream :=
  { angleAt := fun _ => Real.pi / 3, resourceAt := fun _ => 1 }

/-- What one generated starting station looks like: owner, roster name,
home-offset position and paired velocity from the per-count table, and the
exact component populations the generator creates. -/
def StationShape (terra_pos : Position) (els : List (Displacement × Displacement))
    (player : ℕ) (stk : Stack) : Prop :=
  stk.owner = { val := player } ∧
  STARTING_STATION_NAMES.get? player = some stk.name ∧
  (∃ pair, els.get? player = some pair ∧
    stk.position = terra_pos.add pair.1 ∧ stk.velocity = pair.2) ∧
  stk.factories.length = 1 ∧ stk.habitats.length = 1 ∧
  stk.fuel_tanks.length = 2 ∧ stk.cargo_holds.length = 3 ∧
  (∀ e ∈ stk.factories, e.2.damaged = false) ∧
  (∀ e ∈ stk.habitats, e.2.owner = { val := player } ∧ e.2.damaged = false) ∧
  (∀ e ∈ stk.fuel_tanks, e.2.fuel = 20 ∧ e.2.damaged = false) ∧
  (∀ e ∈ stk.cargo_holds, e.2.inventory = CargoList.new 0 0 20 0 ∧ e.2.damaged = false) ∧
  stk.engines = [] ∧ stk.guns = [] ∧ stk.launch_clamps = [] ∧
  stk.miners = [] ∧ stk.armour_plates = []

/-- The starting station the generator builds for one player when the
allocator cursor is c: ids c (stack), c+1 (factory), c+2 (habitat), c+3
and c+4 (fuel tanks at 20 fuel), c+5 to c+7 (cargo holds at 20
materials). -/
def startingStation (name : String) (pos : Position) (vel : Displacement)
    (player c : ℕ) : Stack :=
  { name := name, id := { val := c }, position := pos, velocity := vel,
    owner := { val := player },
    fuel_tanks := [
      ({ val := c + 3 }, { id := { val := c + 3 }, damaged := false, fuel := 20 }),
      ({ val := c + 4 }, { id := { val := c + 4 }, damaged := false, fuel := 20 })],
    cargo_holds := [
      ({ val := c + 5 },
       { id := { val := c + 5 }, damaged := false,
         inventory := { ice := 0, ore := 0, materials := 20, warheads := 0 } }),
      ({ val := c + 6 },
       { id := { val := c + 6 }, damaged := false,
         inventory := { ice := 0, ore := 0, materials := 20, warheads := 0 } }),
      ({ val := c + 7 },
       { id := { val := c + 7 }, damaged := false,
         inventory := { ice := 0, ore := 0, materials := 20, warheads := 0 } })],
    engines := [], guns := [], launch_clamps := [],
    habitats := [
      ({ val := c + 2 },
       { id := { val := c + 2 }, damaged := false, owner := { val := player } })],
    miners := [],
    factories := [({ val := c + 1 }, { id := { val := c + 1 }, damaged := false })],
    armour_plates := [] }

/-! ## Basic lemmas about the allocator, insertion and ranges -/

lemma U64_SIZE_eq : U64_SIZE = 18446744073709551616 := by norm_num [U64_SIZE]

lemma next_eq (c : ℕ) (h0 : c ≠ 0) (h1 : c + 1 < U64_SIZE) :
    EntityIdGenerator.next { next_id := c } = (some { val := c }, { next_id := c + 1 }) := by
  simp [EntityIdGenerator.next, h0, Nat.mod_eq_of_lt h1]

lemma next_fst (c : ℕ) (h0 : c ≠ 0) :
    (EntityIdGenerator.next { next_id := c }).1 = some { val := c } := by
  simp [EntityIdGenerator.next, h0]

lemma insertEntity_fresh {α : Type} {m : List (EntityId × α)} {k : EntityId} {v : α}
    (h : k ∉ m.map Prod.fst) : insertEntity m k v = m ++ [(k, v)] := if_neg h

lemma insertEntity_mem {α : Type} {m : List (EntityId × α)} {k : EntityId} {v : α}
    {e : EntityId × α} (h : e ∈ insertEntity m k v) : e ∈ m ∨ e = (k, v) := by
  unfold insertEntity at h
  split at h
  · rcases List.mem_map.mp h with ⟨p, hp, he⟩
    by_cases hpk : p.1 = k
    · rw [if_pos hpk] at he
      exact Or.inr he.symm
    · rw [if_neg hpk] at he
      exact Or.inl (he ▸ hp)
  · rcases List.mem_append.mp h with h1 | h1
    · exact Or.inl h1
    · exact Or.inr (List.mem_singleton.mp h1)

lemma intRange_mem {lo hi a : ℤ} : a ∈ intRange lo hi ↔ lo ≤ a ∧ a ≤ hi := by
  unfold intRange
  simp only [List.mem_map, List.mem_range]
  constructor
  · rintro ⟨i, hi2, rfl⟩
    omega
  · rintro ⟨h1, h2⟩
    exact ⟨(a - lo).toNat, by omega, by omega⟩

lemma intRange_length (lo hi : ℤ) : (intRange lo hi).length = (hi + 1 - lo).toNat := by
  rw [intRange, List.length_map, List.length_range]

lemma beltCells_mem {q r : ℤ} :
    (q, r) ∈ beltCells ↔
      -36 ≤ q ∧ q ≤ 36 ∧ max (-36) (-q - 36) ≤ r ∧ r ≤ min 36 (-q + 36) := by
  unfold beltCells
  simp only [List.mem_flatMap, List.mem_map, intRange_mem, Prod.mk.injEq]
  constructor
  · rintro ⟨q', ⟨hq1, hq2⟩, r', ⟨hr1, hr2⟩, rfl, rfl⟩
    exact ⟨hq1, hq2, hr1, hr2⟩
  · rintro ⟨h1, h2, h3, h4⟩
    exact ⟨q, ⟨h1, h2⟩, r, ⟨h3, h4⟩, rfl, rfl⟩

lemma beltCells_length_le : beltCells.length ≤ 5329 := by
  unfold beltCells
  rw [List.length_flatMap]
  have h1 : ∀ x ∈ (intRange (-36) 36).map
      (fun q => ((intRange (max (-36) (-q - 36)) (min 36 (-q + 36))).map (fun r => (q, r))).length),
      x ≤ 73 := by
    intro x hx
    rcases List.mem_map.mp hx with ⟨q, _, rfl⟩
    rw [List.length_map, intRange_length]
    omega
  calc ((intRange (-36) 36).map
      (fun q => ((intRange (max (-36) (-q - 36)) (min 36 (-q + 36))).map (fun r => (q, r))).length)).sum
      ≤ ((intRange (-36) 36).map
        (fun q => ((intRange (max (-36) (-q - 36)) (min 36 (-q + 36))).map (fun r => (q, r))).length)).length • 73 :=
        List.sum_le_card_nsmul _ _ h1
    _ ≤ 5329 := by
        rw [smul_eq_mul, List.length_map, intRange_length]
        omega

lemma clusterCands_38_42_length : (clusterCands 38 42).length = 155 := by rfl

lemma clusterCands_32_37_length : (clusterCands 32 37).length = 186 := by rfl

lemma foldOpt_cons {σ α : Type} (f : σ → α → Option σ) (s : σ) (a : α) (t : List α) :
    foldOpt f s (a :: t) = (f s a).bind (fun s' => foldOpt f s' t) := by
  cases h : f s a <;> simp [foldOpt, h]

lemma foldOpt_append {σ α : Type} (f : σ → α → Option σ) (s : σ) (l1 l2 : List α) :
    foldOpt f s (l1 ++ l2) = (foldOpt f s l1).bind (fun s' => foldOpt f s' l2) := by
  induction l1 generalizing s with
  | nil => simp [foldOpt]
  | cons a t ih => cases h : f s a <;> simp [foldOpt, h, ih]

lemma mapRange_add (c a b : ℕ) :
    (List.range (a + b)).map (fun i => c + i) =
      (List.range a).map (fun i => c + i) ++ (List.range b).map (fun i => c + a + i) := by
  rw [List.range_add, List.map_append, List.map_map]
  congr 1
  apply List.map_congr_left
  intro i _
  simp only [Function.comp_apply]
  omega

/-! ## C1: the hex round trip -/

lemma rect_to_hex_hex_to_rect (q r : ℤ) :
    rect_to_hex (hex_to_rect q r).1 (hex_to_rect q r).2 = (3 * q + r, r) := by
  have h3 : Real.sqrt 3 * Real.sqrt 3 = 3 := Real.mul_self_sqrt (by norm_num)
  have hq : Real.sqrt 3 * (Real.sqrt 3 * (q : ℝ) + Real.sqrt 3 / 2 * (r : ℝ)) -
      1 / 3 * (3 / 2 * (r : ℝ)) = ((3 * q + r : ℤ) : ℝ) := by
    push_cast
    linear_combination ((q : ℝ) + (r : ℝ) / 2) * h3
  have hr : (2 : ℝ) / 3 * (3 / 2 * (r : ℝ)) = ((r : ℤ) : ℝ) := by ring
  have hs : -(((3 * q + r : ℤ) : ℝ)) - ((r : ℤ) : ℝ) = ((-(3 * q + r) - r : ℤ) : ℝ) := by
    push_cast; ring
  simp only [rect_to_hex, hex_to_rect]
  rw [hq, hr, hs]
  simp only [round_intCast, sub_self, abs_zero, gt_iff_lt, lt_self_iff_false, false_and,
    and_false, if_false]

/-- C1: the spec claims `rect_to_hex(hex_to_rect(q, r)) == (q, r)` exactly
for every integer pair with absolute value at most 10^6; on the code the
round trip fails already at (q, r) = (1, 0), returning (3, 0), because
`rect_to_hex` computes `q_frac = sqrt 3 * x - y / 3` where the inverse of
`hex_to_rect` needs `x / sqrt 3 - y / 3` (in exact real arithmetic the
round trip is (q, r) to (3 q + r, r)). -/
theorem c1_round_trip_fails_at_one_zero :
    rect_to_hex (hex_to_rect 1 0).1 (hex_to_rect 1 0).2 = (3, 0) ∧
    rect_to_hex (hex_to_rect 1 0).1 (hex_to_rect 1 0).2 ≠ (1, 0) := by
  have h := rect_to_hex_hex_to_rect 1 0
  norm_num at h
  refine ⟨h, ?_⟩
  rw [h]
  decide

/-! ## C4: the entity id allocator -/

lemma after_eq (c k : ℕ) (h0 : c ≠ 0) (h : c + k < U64_SIZE) :
    EntityIdGenerator.after { next_id := c } k = { next_id := c + k } := by
  induction k generalizing c with
  | zero => simp [EntityIdGenerator.after]
  | succ k ih =>
    show ((EntityIdGenerator.next { next_id := c }).2).after k = _
    rw [next_eq c h0 (by omega)]
    rw [show c + (k + 1) = (c + 1) + k by omega]
    exact ih (c + 1) (by omega) (by omega)

lemma after_of_zero (g : EntityIdGenerator) (h : g.next_id = 0) (k : ℕ) :
    g.after k = g := by
  induction k with
  | zero => rfl
  | succ k ih =>
    show ((g.next).2).after k = g
    have h2 : g.next = (none, g) := by simp [EntityIdGenerator.next, h]
    rw [h2]
    exact ih

/-- C4: on a freshly created allocator the n-th call to `next` returns
EntityId n, for every n from 1 up to 2^64 - 1; `next` returns an empty
result exactly when the internal counter is 0 (has wrapped); and that
state is terminal: after any number of further calls the result is still
empty and the counter is unchanged. -/
theorem c4_allocator_nth_and_terminal :
    (∀ n : ℕ, 1 ≤ n → n + 1 ≤ U64_SIZE →
      EntityIdGenerator.new.nthCall n = some { val := n }) ∧
    (∀ g : EntityIdGenerator, (g.next).1 = none ↔ g.next_id = 0) ∧
    (∀ g : EntityIdGenerator, (g.next).1 = none →
      ∀ k : ℕ, ((g.after k).next).1 = none ∧ (g.after k).next_id = g.next_id) := by
  have hnone : ∀ g : EntityIdGenerator, (g.next).1 = none ↔ g.next_id = 0 := by
    intro g
    by_cases h : g.next_id = 0 <;> simp [EntityIdGenerator.next, h]
  refine ⟨?_, hnone, ?_⟩
  · intro n h1 h2
    unfold EntityIdGenerator.nthCall EntityIdGenerator.new
    rw [after_eq 1 (n - 1) (by omega) (by omega)]
    rw [show 1 + (n - 1) = n by omega]
    exact next_fst n (by omega)
  · intro g h k
    have h0 : g.next_id = 0 := (hnone g).mp h
    rw [after_of_zero g h0 k]
    exact ⟨h, rfl⟩

/-! ## Inversion lemmas for the generation pipeline -/

lemma MinorBody.new_some {name : String} {g : EntityIdGenerator} {pos : Position} {rad : ℚ}
    {ice ore : ℕ} {b : MinorBody} {g2 : EntityIdGenerator}
    (h : MinorBody.new name g pos rad ice ore = some (b, g2)) :
    b = { name := name, id := { val := g.next_id }, position := pos, radius := rad,
          ice_abundance := ice, ore_abundance := ore } ∧
    g.next_id ≠ 0 ∧ g2 = { next_id := (g.next_id + 1) % U64_SIZE } := by
  by_cases h0 : g.next_id = 0
  · simp [MinorBody.new, EntityIdGenerator.next, h0] at h
  · simp only [MinorBody.new, EntityIdGenerator.next, if_pos h0, ne_eq, h0,
      not_false_eq_true, if_true, Option.some.injEq, Prod.mk.injEq] at h
    exact ⟨h.1.symm, h0, h.2.symm⟩

lemma beltStep_memOr {s : BeltState} {a : ℤ × ℤ} {s' : BeltState}
    (h : beltStep s a = some s') :
    ∀ e ∈ s'.minor_bodies, e ∈ s.minor_bodies ∨
      (e.2.position = { q := a.1, r := a.2 } ∧
       ¬ ((a.1.natAbs + a.2.natAbs + (a.1 + a.2).natAbs) / 2 < 29) ∧
       (e.2.ice_abundance ≠ 0 ∨ e.2.ore_abundance ≠ 0)) := by
  unfold beltStep at h
  split at h
  next hdist =>
    obtain rfl : s = s' := Option.some.inj h
    exact fun e he => Or.inl he
  next hdist =>
    simp only [Rng.sampleResource] at h
    split at h
    next hzero =>
      obtain rfl : _ = s' := Option.some.inj h
      exact fun e he => Or.inl he
    next hzero =>
      simp only [AsteroidNameGenerator.next] at h
      split at h
      next ast gen hmb =>
        obtain rfl : _ = s' := Option.some.inj h
        obtain ⟨hast, -, -⟩ := MinorBody.new_some hmb
        intro e he
        rcases insertEntity_mem he with h1 | h1
        · exact Or.inl h1
        · subst h1
          refine Or.inr ⟨?_, hdist, ?_⟩
          · rw [hast]
          · rw [hast]
            simpa using not_and_or.mp hzero
      next hmb => exact absurd h (by simp)

lemma clusterStep_memOr {jang off : ℝ} {s : BeltState} {a : ℤ × ℤ} {s' : BeltState}
    (h : clusterStep jang off s a = some s') :
    ∀ e ∈ s'.minor_bodies, e ∈ s.minor_bodies ∨
      (e.2.ice_abundance ≠ 0 ∨ e.2.ore_abundance ≠ 0) := by
  unfold clusterStep at h
  simp only [Rng.sampleResource] at h
  split at h
  next hzero =>
    obtain rfl : _ = s' := Option.some.inj h
    exact fun e he => Or.inl he
  next hzero =>
    split at h
    next hcol =>
      obtain rfl : _ = s' := Option.some.inj h
      exact fun e he => Or.inl he
    next hcol =>
      simp only [AsteroidNameGenerator.next] at h
      split at h
      next ast gen hmb =>
        obtain rfl : _ = s' := Option.some.inj h
        obtain ⟨hast, -, -⟩ := MinorBody.new_some hmb
        intro e he
        rcases insertEntity_mem he with h1 | h1
        · exact Or.inl h1
        · subst h1
          refine Or.inr ?_
          rw [hast]
          simpa using not_and_or.mp hzero
      next hmb => exact absurd h (by simp)

lemma foldOpt_memOr {f : BeltState → (ℤ × ℤ) → Option BeltState}
    {Q : (EntityId × MinorBody) → (ℤ × ℤ) → Prop}
    (hf : ∀ s a s', f s a = some s' → ∀ e ∈ s'.minor_bodies, e ∈ s.minor_bodies ∨ Q e a)
    (cells : List (ℤ × ℤ)) :
    ∀ (s s' : BeltState), foldOpt f s cells = some s' →
      ∀ e ∈ s'.minor_bodies, e ∈ s.minor_bodies ∨ ∃ a ∈ cells, Q e a := by
  induction cells with
  | nil =>
    intro s s' h e he
    simp only [foldOpt] at h
    obtain rfl : s = s' := Option.some.inj h
    exact Or.inl he
  | cons a t ih =>
    intro s s' h e he
    rw [foldOpt_cons] at h
    rcases Option.bind_eq_some.mp h with ⟨s1, hs1, hrest⟩
    rcases ih s1 s' hrest e he with h1 | ⟨b, hb, hQ⟩
    · rcases hf s a s1 hs1 e h1 with h2 | hQ
      · exact Or.inl h2
      · exact Or.inr ⟨a, List.mem_cons_self a t, hQ⟩
    · exact Or.inr ⟨b, List.mem_cons_of_mem a hb, hQ⟩

lemma GameState.new_inv {stream : RandomStream} {n : ℕ} {g : EntityIdGenerator}
    {st : GameState} {g' : EntityIdGenerator}
    (h : GameState.new stream n g = some (st, g')) :
    (2 ≤ n ∧ n ≤ 6) ∧
    ∃ out s1 s2 s3 s4 els s5,
      genBodies stream g = some out ∧
      mainBelt { rng := out.rng, ang := { last := 0 }, gen := out.gen,
                 minor_bodies := out.minor_bodies } = some s1 ∧
      trojans out.jupiter_angle s1 = some s2 ∧
      greeks out.jupiter_angle s2 = some s3 ∧
      hildas out.jupiter_angle s3 = some s4 ∧
      starting_station_orbital_elements n = some els ∧
      genStacks out.terra_position els n s4.gen = some s5 ∧
      st = { major_bodies := out.major_bodies, minor_bodies := s4.minor_bodies,
             stacks' := s5.stacks', warheads := [], phase := Phase.economic } ∧
      g' = s5.gen := by
  unfold GameState.new at h
  split at h
  case isTrue hv =>
    simp only [Option.bind_eq_bind, Option.bind_eq_some, Option.some.injEq, Prod.mk.injEq] at h
    obtain ⟨out, hout, s1, hs1, s2, hs2, s3, hs3, s4, hs4, els, hels, s5, hs5, hst, hg⟩ := h
    exact ⟨hv, out, s1, s2, s3, s4, els, s5, hout, hs1, hs2, hs3, hs4, hels, hs5,
      hst.symm, hg.symm⟩
  case isFalse hv => exact absurd h (by simp)

lemma bind_some_inv {α β : Type} {x : Option α} {f : α → Option β} {b : β}
    (h : x >>= f = some b) : ∃ a, x = some a ∧ f a = some b := by
  cases x with
  | none => simp at h
  | some a => exact ⟨a, rfl, by simpa using h⟩

lemma genMoons_inv {p : Position} {g : EntityIdGenerator}
    {minors : List (EntityId × MinorBody)} {g2 : EntityIdGenerator}
    (h : genMoons p g = some (minors, g2)) :
    ∀ e ∈ minors, e.2.ice_abundance = 1 ∧ e.2.ore_abundance = 0 := by
  unfold genMoons at h
  obtain ⟨⟨phobos, g1⟩, hpho, h⟩ := bind_some_inv h
  obtain ⟨⟨deimos, g1b⟩, hdei, h⟩ := bind_some_inv h
  obtain ⟨hphB, -, -⟩ := MinorBody.new_some hpho
  obtain ⟨hdeB, -, -⟩ := MinorBody.new_some hdei
  obtain ⟨hmin, -⟩ : _ ∧ _ := Prod.mk.injEq .. ▸ Option.some.inj h
  subst hmin
  intro e he
  rcases insertEntity_mem he with h1 | h1
  · rcases insertEntity_mem h1 with h2 | h2
    · simp at h2
    · subst h2
      rw [hphB]
      exact ⟨rfl, rfl⟩
  · subst h1
    rw [hdeB]
    exact ⟨rfl, rfl⟩

lemma genBodies_minor_nonzero {stream : RandomStream} {g : EntityIdGenerator} {out : BodiesOut}
    (h : genBodies stream g = some out) :
    ∀ e ∈ out.minor_bodies, e.2.ice_abundance ≠ 0 ∨ e.2.ore_abundance ≠ 0 := by
  unfold genBodies at h
  obtain ⟨⟨majors1, terra_pos, rng1, g1⟩, hinner, h⟩ := bind_some_inv h
  obtain ⟨⟨majors2, mars_pos, jang, rng2, g2⟩, houter, h⟩ := bind_some_inv h
  obtain ⟨⟨minors, g3⟩, hmoons, h⟩ := bind_some_inv h
  obtain rfl : _ = out := Option.some.inj h
  intro e he
  have h2 := genMoons_inv hmoons e he
  left
  rw [h2.1]
  omega

lemma beltCells_mem' {a : ℤ × ℤ} :
    a ∈ beltCells ↔
      -36 ≤ a.1 ∧ a.1 ≤ 36 ∧ max (-36) (-a.1 - 36) ≤ a.2 ∧ a.2 ≤ min 36 (-a.1 + 36) := by
  obtain ⟨q, r⟩ := a
  simpa using beltCells_mem

lemma belt_fold_memOr {s s' : BeltState} (h : mainBelt s = some s') :
    ∀ e ∈ s'.minor_bodies, e ∈ s.minor_bodies ∨
      (e.2.ice_abundance ≠ 0 ∨ e.2.ore_abundance ≠ 0) := by
  intro e he
  have h2 := foldOpt_memOr
    (Q := fun e _ => e.2.ice_abundance ≠ 0 ∨ e.2.ore_abundance ≠ 0)
    (fun s a s' hsa e he => (beltStep_memOr hsa e he).imp id (fun hh => hh.2.2))
    beltCells _ _ h e he
  rcases h2 with h1 | ⟨-, -, h1⟩
  · exact Or.inl h1
  · exact Or.inr h1

lemma cluster_fold_memOr {jang off : ℝ} {cands : List (ℤ × ℤ)} {s s' : BeltState}
    (h : foldOpt (clusterStep jang off) s cands = some s') :
    ∀ e ∈ s'.minor_bodies, e ∈ s.minor_bodies ∨
      (e.2.ice_abundance ≠ 0 ∨ e.2.ore_abundance ≠ 0) := by
  intro e he
  have h2 := foldOpt_memOr
    (Q := fun e _ => e.2.ice_abundance ≠ 0 ∨ e.2.ore_abundance ≠ 0)
    (fun s a s' hsa => clusterStep_memOr hsa) cands _ _ h e he
  rcases h2 with h1 | ⟨-, -, h1⟩
  · exact Or.inl h1
  · exact Or.inr h1

/-- C5: every minor body present in a generated world has positive ice or
positive ore abundance: the fixed inner moons carry ice 1, and the belt
and cluster loops both skip any candidate whose two sampled abundances are
zero. -/
theorem c5_minor_body_abundance_nonzero {stream : RandomStream} {n : ℕ}
    {g : EntityIdGenerator} {st : GameState} {g' : EntityIdGenerator}
    (h : GameState.new stream n g = some (st, g')) :
    ∀ e ∈ st.minor_bodies, 0 < e.2.ice_abundance ∨ 0 < e.2.ore_abundance := by
  obtain ⟨-, out, s1, s2, s3, s4, els, s5, hout, hs1, hs2, hs3, hs4, -, -, hst, -⟩ :=
    GameState.new_inv h
  subst hst
  intro e he
  have conv : e.2.ice_abundance ≠ 0 ∨ e.2.ore_abundance ≠ 0 →
      0 < e.2.ice_abundance ∨ 0 < e.2.ore_abundance :=
    fun hh => hh.imp Nat.pos_of_ne_zero Nat.pos_of_ne_zero
  rcases cluster_fold_memOr hs4 e he with e3 | hnz
  · rcases cluster_fold_memOr hs3 e e3 with e2 | hnz
    · rcases cluster_fold_memOr hs2 e e2 with e1 | hnz
      · rcases belt_fold_memOr hs1 e e1 with e0 | hnz
        · exact conv (genBodies_minor_nonzero hout e e0)
        · exact conv hnz
      · exact conv hnz
    · exact conv hnz
  · exact conv hnz

/-- C7: every asteroid emitted by the main-belt enumeration lies in the
inclusive annulus 29..36 of hex distance (norm) from the origin: cells at
distance below 29 are skipped, and the q/r enumeration over the radius-36
hex disk bounds the distance above by 36. -/
theorem c7_main_belt_annulus {s s' : BeltState} (h : mainBelt s = some s') :
    ∀ e ∈ s'.minor_bodies, e ∉ s.minor_bodies →
      29 ≤ Displacement.norm { q := e.2.position.q, r := e.2.position.r } ∧
      Displacement.norm { q := e.2.position.q, r := e.2.position.r } ≤ 36 := by
  intro e he hnew
  have h2 := foldOpt_memOr
    (Q := fun e a => e.2.position = { q := a.1, r := a.2 } ∧
      ¬ ((a.1.natAbs + a.2.natAbs + (a.1 + a.2).natAbs) / 2 < 29) ∧
      (e.2.ice_abundance ≠ 0 ∨ e.2.ore_abundance ≠ 0))
    (fun s a s' hsa => beltStep_memOr hsa) beltCells _ _ h e he
  rcases h2 with h1 | ⟨a, ha, hpos, hdist, -⟩
  · exact absurd h1 hnew
  · have hb := beltCells_mem'.mp ha
    rw [hpos]
    simp only [Displacement.norm]
    omega

/-! ## Forward (totality) lemmas for the generation loops -/

lemma next_eq' (g : EntityIdGenerator) (h0 : g.next_id ≠ 0) (h1 : g.next_id + 1 < U64_SIZE) :
    g.next = (some { val := g.next_id }, { next_id := g.next_id + 1 }) := by
  simp [EntityIdGenerator.next, h0, Nat.mod_eq_of_lt h1]

lemma not_mem_keys_of_lt {α : Type} {m : List (EntityId × α)} {c : ℕ}
    (hkeys : ∀ e ∈ m, e.1.val < c) : ({ val := c } : EntityId) ∉ m.map Prod.fst := by
  intro hmem
  rcases List.mem_map.mp hmem with ⟨e, he, heq⟩
  have h2 := hkeys e he
  rw [heq] at h2
  simp at h2

lemma beltStep_fwd (s : BeltState) (a : ℤ × ℤ)
    (h1 : 1 ≤ s.gen.next_id) (h2 : s.gen.next_id + 1 < U64_SIZE)
    (hkeys : ∀ e ∈ s.minor_bodies, e.1.val < s.gen.next_id) :
    ∃ s', beltStep s a = some s' ∧ s'.rng.stream = s.rng.stream ∧
      ((s'.gen = s.gen ∧ s'.minor_bodies = s.minor_bodies) ∨
       (s'.gen.next_id = s.gen.next_id + 1 ∧
        ∃ b : MinorBody, s'.minor_bodies = s.minor_bodies ++ [({ val := s.gen.next_id }, b)] ∧
          b.id = { val := s.gen.next_id })) := by
  unfold beltStep
  split
  · exact ⟨s, rfl, rfl, Or.inl ⟨rfl, rfl⟩⟩
  · simp only [Rng.sampleResource]
    split
    · exact ⟨_, rfl, rfl, Or.inl ⟨rfl, rfl⟩⟩
    · simp only [AsteroidNameGenerator.next, MinorBody.new]
      rw [next_eq' s.gen (by omega) h2]
      exact ⟨_, rfl, rfl, Or.inr ⟨rfl, _,
        insertEntity_fresh (not_mem_keys_of_lt hkeys), rfl⟩⟩

lemma clusterStep_fwd (jang off : ℝ) (s : BeltState) (a : ℤ × ℤ)
    (h1 : 1 ≤ s.gen.next_id) (h2 : s.gen.next_id + 1 < U64_SIZE)
    (hkeys : ∀ e ∈ s.minor_bodies, e.1.val < s.gen.next_id) :
    ∃ s', clusterStep jang off s a = some s' ∧ s'.rng.stream = s.rng.stream ∧
      ((s'.gen = s.gen ∧ s'.minor_bodies = s.minor_bodies) ∨
       (s'.gen.next_id = s.gen.next_id + 1 ∧
        ∃ b : MinorBody, s'.minor_bodies = s.minor_bodies ++ [({ val := s.gen.next_id }, b)] ∧
          b.id = { val := s.gen.next_id })) := by
  unfold clusterStep
  simp only [Rng.sampleResource]
  split
  · exact ⟨_, rfl, rfl, Or.inl ⟨rfl, rfl⟩⟩
  · split
    · exact ⟨_, rfl, rfl, Or.inl ⟨rfl, rfl⟩⟩
    · simp only [AsteroidNameGenerator.next, MinorBody.new]
      rw [next_eq' s.gen (by omega) h2]
      exact ⟨_, rfl, rfl, Or.inr ⟨rfl, _,
        insertEntity_fresh (not_mem_keys_of_lt hkeys), rfl⟩⟩

lemma range_cons_shift (c k : ℕ) :
    c :: (List.range k).map (fun i => c + 1 + i) = (List.range (k + 1)).map (fun i => c + i) := by
  rw [List.range_succ_eq_map, List.map_cons, List.map_map]
  rw [Nat.add_zero]
  congr 1
  apply List.map_congr_left
  intro i _
  simp only [Function.comp_apply, Nat.succ_eq_add_one]
  omega

lemma foldOpt_fwd {f : BeltState → (ℤ × ℤ) → Option BeltState}
    (hf : ∀ s a, 1 ≤ s.gen.next_id → s.gen.next_id + 1 < U64_SIZE →
      (∀ e ∈ s.minor_bodies, e.1.val < s.gen.next_id) →
      ∃ s', f s a = some s' ∧ s'.rng.stream = s.rng.stream ∧
        ((s'.gen = s.gen ∧ s'.minor_bodies = s.minor_bodies) ∨
         (s'.gen.next_id = s.gen.next_id + 1 ∧
          ∃ b : MinorBody, s'.minor_bodies = s.minor_bodies ++ [({ val := s.gen.next_id }, b)] ∧
            b.id = { val := s.gen.next_id }))) :
    ∀ (cells : List (ℤ × ℤ)) (s : BeltState), 1 ≤ s.gen.next_id →
      s.gen.next_id + cells.length < U64_SIZE →
      (∀ e ∈ s.minor_bodies, e.1.val < s.gen.next_id) →
      ∃ s' k, foldOpt f s cells = some s' ∧ k ≤ cells.length ∧
        s'.gen.next_id = s.gen.next_id + k ∧ s'.rng.stream = s.rng.stream ∧
        ∃ new, s'.minor_bodies = s.minor_bodies ++ new ∧
          new.map (fun e => e.1.val) = (List.range k).map (fun i => s.gen.next_id + i) ∧
          (∀ e ∈ new, e.1 = e.2.id) ∧
          (∀ e ∈ s'.minor_bodies, e.1.val < s'.gen.next_id) := by
  intro cells
  induction cells with
  | nil =>
    intro s hc1 hc2 hkeys
    exact ⟨s, 0, rfl, by omega, by omega, rfl, [], by simp, by simp, by simp, hkeys⟩
  | cons a t ih =>
    intro s hc1 hc2 hkeys
    obtain ⟨s1, hstep, hstream1, hdisj⟩ :=
      hf s a hc1 (by simp only [List.length_cons] at hc2; omega) hkeys
    rcases hdisj with ⟨hgen1, hmin1⟩ | ⟨hgen1, b, hmin1, hbid⟩
    · obtain ⟨s', k, hfold, hk, hgen, hstream, new, hnew, hids, hpair, hkeys'⟩ :=
        ih s1 (by rw [hgen1]; exact hc1)
          (by rw [hgen1]; simp only [List.length_cons] at hc2; omega)
          (by rw [hgen1, hmin1]; exact hkeys)
      refine ⟨s', k, ?_, ?_, ?_, ?_, new, ?_, ?_, hpair, hkeys'⟩
      · rw [foldOpt_cons, hstep, Option.some_bind]
        exact hfold
      · simp only [List.length_cons]
        omega
      · rw [hgen, hgen1]
      · rw [hstream, hstream1]
      · rw [hnew, hmin1]
      · rw [hids, hgen1]
    · obtain ⟨s', k, hfold, hk, hgen, hstream, new, hnew, hids, hpair, hkeys'⟩ :=
        ih s1 (by omega)
          (by simp only [List.length_cons] at hc2; omega)
          (by
            rw [hmin1]
            intro e he
            rcases List.mem_append.mp he with h3 | h3
            · have := hkeys e h3
              omega
            · rw [List.mem_singleton.mp h3]
              simp only []
              omega)
      refine ⟨s', k + 1, ?_, ?_, ?_, ?_, ({ val := s.gen.next_id }, b) :: new, ?_, ?_, ?_, hkeys'⟩
      · rw [foldOpt_cons, hstep, Option.some_bind]
        exact hfold
      · simp only [List.length_cons]
        omega
      · omega
      · rw [hstream, hstream1]
      · rw [hnew, hmin1]
        simp
      · rw [List.map_cons, hids]
        simp only []
        rw [hgen1]
        exact range_cons_shift s.gen.next_id k
      · intro e he
        rcases List.mem_cons.mp he with h3 | h3
        · rw [h3]
          exact hbid.symm
        · exact hpair e h3


set_option maxHeartbeats 1000000 in
lemma genInnerPlanets_eq (stream : RandomStream) :
    genInnerPlanets { stream := stream, angleIdx := 0, resourceIdx := 0 }
      EntityIdGenerator.new = some
      ([({ val := 1 },
         { name := "Sol", id := { val := 1 }, position := { q := 0, r := 0 },
           radius := 8 / 10, colour := "#ffff00" }),
        ({ val := 2 },
         { name := "Mercury", id := { val := 2 },
           position := Position.fromRect
             (6 * Real.cos (stream.angleAt 0), 6 * Real.sin (stream.angleAt 0)),
           radius := 3 / 10, colour := "#404040" }),
        ({ val := 3 },
         { name := "Venus", id := { val := 3 },
           position := Position.fromRect
             (12 * Real.cos (stream.angleAt 1), 12 * Real.sin (stream.angleAt 1)),
           radius := 6 / 10, colour := "#ffc000" }),
        ({ val := 4 },
         { name := "Terra", id := { val := 4 }, position := terra_position,
           radius := 6 / 10, colour := "#0000ff" }),
        ({ val := 5 },
         { name := "Luna", id := { val := 5 },
           position := terra_position.add { q := 3, r := 2 }, radius := 4 / 10,
           colour := "#808080" })],
       terra_position,
       { stream := stream, angleIdx := 2, resourceIdx := 0 }, { next_id := 6 }) := by
  rfl

set_option maxHeartbeats 2000000 in
lemma genOuterPlanets_eq (stream : RandomStream) :
    genOuterPlanets
      [({ val := 1 },
        { name := "Sol", id := { val := 1 }, position := { q := 0, r := 0 },
          radius := 8 / 10, colour := "#ffff00" }),
       ({ val := 2 },
        { name := "Mercury", id := { val := 2 },
          position := Position.fromRect
            (6 * Real.cos (stream.angleAt 0), 6 * Real.sin (stream.angleAt 0)),
          radius := 3 / 10, colour := "#404040" }),
       ({ val := 3 },
        { name := "Venus", id := { val := 3 },
          position := Position.fromRect
            (12 * Real.cos (stream.angleAt 1), 12 * Real.sin (stream.angleAt 1)),
          radius := 6 / 10, colour := "#ffc000" }),
       ({ val := 4 },
        { name := "Terra", id := { val := 4 }, position := terra_position,
          radius := 6 / 10, colour := "#0000ff" }),
       ({ val := 5 },
        { name := "Luna", id := { val := 5 },
          position := terra_position.add { q := 3, r := 2 }, radius := 4 / 10,
          colour := "#808080" })]
      { stream := stream, angleIdx := 2, resourceIdx := 0 } { next_id := 6 } = some
      ([({ val := 1 },
         { name := "Sol", id := { val := 1 }, position := { q := 0, r := 0 },
           radius := 8 / 10, colour := "#ffff00" }),
        ({ val := 2 },
         { name := "Mercury", id := { val := 2 },
           position := Position.fromRect
             (6 * Real.cos (stream.angleAt 0), 6 * Real.sin (stream.angleAt 0)),
           radius := 3 / 10, colour := "#404040" }),
        ({ val := 3 },
         { name := "Venus", id := { val := 3 },
           position := Position.fromRect
             (12 * Real.cos (stream.angleAt 1), 12 * Real.sin (stream.angleAt 1)),
           radius := 6 / 10, colour := "#ffc000" }),
        ({ val := 4 },
         { name := "Terra", id := { val := 4 }, position := terra_position,
           radius := 6 / 10, colour := "#0000ff" }),
        ({ val := 5 },
         { name := "Luna", id := { val := 5 },
           position := terra_position.add { q := 3, r := 2 }, radius := 4 / 10,
           colour := "#808080" }),
        ({ val := 6 },
         { name := "Mars", id := { val := 6 },
           position := Position.fromRect
             (24 * Real.cos (stream.angleAt 2), 24 * Real.sin (stream.angleAt 2)),
           radius := 5 / 10, colour := "#ff0000" }),
        ({ val := 7 },
         { name := "Jupiter", id := { val := 7 },
           position := Position.fromRect
             (40 * Real.cos (stream.angleAt 3), 40 * Real.sin (stream.angleAt 3)),
           radius := 8 / 10, colour := "#ffc000" }),
        ({ val := 8 },
         { name := "Europa", id := { val := 8 },
           position := (Position.fromRect
             (40 * Real.cos (stream.angleAt 3), 40 * Real.sin (stream.angleAt 3))).add
             { q := 0, r := 3 },
           radius := 3 / 10, colour := "#a0a0ff" }),
        ({ val := 9 },
         { name := "Callisto", id := { val := 9 },
           position := (Position.fromRect
             (40 * Real.cos (stream.angleAt 3), 40 * Real.sin (stream.angleAt 3))).add
             { q := -4, r := 0 },
           radius := 3 / 10, colour := "#404040" }),
        ({ val := 10 },
         { name := "Ganymede", id := { val := 10 },
           position := (Position.fromRect
             (40 * Real.cos (stream.angleAt 3), 40 * Real.sin (stream.angleAt 3))).add
             { q := 4, r := -2 },
           radius := 3 / 10, colour := "#404040" })],
       Position.fromRect (24 * Real.cos (stream.angleAt 2), 24 * Real.sin (stream.angleAt 2)),
       stream.angleAt 3,
       { stream := stream, angleIdx := 4, resourceIdx := 0 }, { next_id := 11 }) := by
  rfl

lemma genMoons_eq (p : Position) :
    genMoons p { next_id := 11 } = some
      ([({ val := 11 },
         { name := "Phobos", id := { val := 11 }, position := p.add { q := 0, r := -2 },
           radius := 2 / 10, ice_abundance := 1, ore_abundance := 0 }),
        ({ val := 12 },
         { name := "Deimos", id := { val := 12 }, position := p.add { q := 3, r := 0 },
           radius := 2 / 10, ice_abundance := 1, ore_abundance := 0 })],
       { next_id := 13 }) := by
  rfl

set_option maxHeartbeats 1000000 in
lemma genBodies_new_eq (stream : RandomStream) :
    genBodies stream EntityIdGenerator.new = some
      { major_bodies := [
          ({ val := 1 },
           { name := "Sol", id := { val := 1 }, position := { q := 0, r := 0 },
             radius := 8 / 10, colour := "#ffff00" }),
          ({ val := 2 },
           { name := "Mercury", id := { val := 2 },
             position := Position.fromRect
               (6 * Real.cos (stream.angleAt 0), 6 * Real.sin (stream.angleAt 0)),
             radius := 3 / 10, colour := "#404040" }),
          ({ val := 3 },
           { name := "Venus", id := { val := 3 },
             position := Position.fromRect
               (12 * Real.cos (stream.angleAt 1), 12 * Real.sin (stream.angleAt 1)),
             radius := 6 / 10, colour := "#ffc000" }),
          ({ val := 4 },
           { name := "Terra", id := { val := 4 }, position := terra_position,
             radius := 6 / 10, colour := "#0000ff" }),
          ({ val := 5 },
           { name := "Luna", id := { val := 5 },
             position := terra_position.add { q := 3, r := 2 }, radius := 4 / 10,
             colour := "#808080" }),
          ({ val := 6 },
           { name := "Mars", id := { val := 6 },
             position := Position.fromRect
               (24 * Real.cos (stream.angleAt 2), 24 * Real.sin (stream.angleAt 2)),
             radius := 5 / 10, colour := "#ff0000" }),
          ({ val := 7 },
           { name := "Jupiter", id := { val := 7 },
             position := Position.fromRect
               (40 * Real.cos (stream.angleAt 3), 40 * Real.sin (stream.angleAt 3)),
             radius := 8 / 10, colour := "#ffc000" }),
          ({ val := 8 },
           { name := "Europa", id := { val := 8 },
             position := (Position.fromRect
               (40 * Real.cos (stream.angleAt 3), 40 * Real.sin (stream.angleAt 3))).add
               { q := 0, r := 3 },
             radius := 3 / 10, colour := "#a0a0ff" }),
          ({ val := 9 },
           { name := "Callisto", id := { val := 9 },
             position := (Position.fromRect
               (40 * Real.cos (stream.angleAt 3), 40 * Real.sin (stream.angleAt 3))).add
               { q := -4, r := 0 },
             radius := 3 / 10, colour := "#404040" }),
          ({ val := 10 },
           { name := "Ganymede", id := { val := 10 },
             position := (Position.fromRect
               (40 * Real.cos (stream.angleAt 3), 40 * Real.sin (stream.angleAt 3))).add
               { q := 4, r := -2 },
             radius := 3 / 10, colour := "#404040" })],
        minor_bodies := [
          ({ val := 11 },
           { name := "Phobos", id := { val := 11 },
             position := (Position.fromRect
               (24 * Real.cos (stream.angleAt 2), 24 * Real.sin (stream.angleAt 2))).add
               { q := 0, r := -2 },
             radius := 2 / 10, ice_abundance := 1, ore_abundance := 0 }),
          ({ val := 12 },
           { name := "Deimos", id := { val := 12 },
             position := (Position.fromRect
               (24 * Real.cos (stream.angleAt 2), 24 * Real.sin (stream.angleAt 2))).add
               { q := 3, r := 0 },
             radius := 2 / 10, ice_abundance := 1, ore_abundance := 0 })],
        terra_position := terra_position,
        jupiter_angle := stream.angleAt 3,
        rng := { stream := stream, angleIdx := 4, resourceIdx := 0 },
        gen := { next_id := 13 } } := by
  simp only [genBodies, genInnerPlanets_eq, Option.some_bind, genOuterPlanets_eq, genMoons_eq]
  rfl

lemma next_eq2 (c d : ℕ) (h0 : c ≠ 0) (h1 : c + 1 < U64_SIZE) (hd : d = c + 1) :
    EntityIdGenerator.next { next_id := c } = (some { val := c }, { next_id := d }) := by
  subst hd
  exact next_eq c h0 h1

lemma stationStep_eq (terra_pos : Position) (els : List (Displacement × Displacement))
    (stks : List (EntityId × Stack)) (player : ℕ) (name : String)
    (pair : Displacement × Displacement) (c : ℕ)
    (hname : STARTING_STATION_NAMES.get? player = some name)
    (hpair : els.get? player = some pair)
    (h1 : 1 ≤ c) (h2 : c + 8 < U64_SIZE)
    (hkeys : ∀ e ∈ stks, e.1.val < c) :
    stationStep terra_pos els { gen := { next_id := c }, stacks' := stks } player = some
      { gen := { next_id := c + 8 },
        stacks' := stks ++ [({ val := c },
          startingStation name (terra_pos.add pair.1) pair.2 player c)] } := by
  have e0 := next_eq2 c (c + 1) (by omega) (by omega) rfl
  have e1 := next_eq2 (c + 1) (c + 2) (by omega) (by omega) (by omega)
  have e2 := next_eq2 (c + 2) (c + 3) (by omega) (by omega) (by omega)
  have e3 := next_eq2 (c + 3) (c + 4) (by omega) (by omega) (by omega)
  have e4 := next_eq2 (c + 4) (c + 5) (by omega) (by omega) (by omega)
  have e5 := next_eq2 (c + 5) (c + 6) (by omega) (by omega) (by omega)
  have e6 := next_eq2 (c + 6) (c + 7) (by omega) (by omega) (by omega)
  have e7 := next_eq2 (c + 7) (c + 8) (by omega) (by omega) (by omega)
  simp only [stationStep, hname, hpair, Option.some_bind, Option.bind_eq_bind,
    Stack.new, Factory.new, Habitat.new, FuelTank.new, CargoHold.new, CargoList.new,
    e0, e1, e2, e3, e4, e5, e6, e7]
  simp (disch := simp [EntityId.mk.injEq]) only
    [insertEntity_fresh, List.nil_append, List.singleton_append, List.cons_append]
  rw [insertEntity_fresh (not_mem_keys_of_lt hkeys)]
  rfl

lemma range8_map (c : ℕ) :
    (List.range 8).map (fun i => c + i) = [c, c + 1, c + 2, c + 3, c + 4, c + 5, c + 6, c + 7] := by
  have h : List.range 8 = [0, 1, 2, 3, 4, 5, 6, 7] := rfl
  rw [h]
  norm_num

lemma startingStation_allIds (name : String) (pos : Position) (vel : Displacement)
    (player c : ℕ) :
    (startingStation name pos vel player c).allIds =
      [c, c + 1, c + 2, c + 3, c + 4, c + 5, c + 6, c + 7] := by
  simp [startingStation, Stack.allIds]

lemma startingStation_shape (terra_pos : Position) (els : List (Displacement × Displacement))
    (player c : ℕ) (name : String) (pair : Displacement × Displacement)
    (hname : STARTING_STATION_NAMES.get? player = some name)
    (hpair : els.get? player = some pair) :
    StationShape terra_pos els player (startingStation name (terra_pos.add pair.1) pair.2 player c) := by
  unfold StationShape startingStation
  refine ⟨rfl, ?_, ⟨pair, hpair, rfl, rfl⟩, rfl, rfl, rfl, rfl, ?_, ?_, ?_, ?_,
    rfl, rfl, rfl, rfl, rfl⟩
  · exact hname
  · simp
  · simp
  · simp
  · simp [CargoList.new]

lemma genStacks_fold (terra_pos : Position) (els : List (Displacement × Displacement)) :
    ∀ (ps : List ℕ) (c : ℕ) (stks : List (EntityId × Stack)),
      (∀ p ∈ ps, p < STARTING_STATION_NAMES.length ∧ p < els.length) →
      1 ≤ c → c + 8 * ps.length < U64_SIZE →
      (∀ e ∈ stks, e.1.val < c) →
      ∃ out, foldOpt (stationStep terra_pos els) { gen := { next_id := c }, stacks' := stks } ps
          = some out ∧
        out.gen = { next_id := c + 8 * ps.length } ∧
        ∃ new, out.stacks' = stks ++ new ∧ new.length = ps.length ∧
          new.flatMap (fun e => e.2.allIds) = (List.range (8 * ps.length)).map (fun i => c + i) ∧
          (∀ i (hi : i < ps.length) (hi2 : i < new.length),
            StationShape terra_pos els (ps.get ⟨i, hi⟩) ((new.get ⟨i, hi2⟩).2)) ∧
          (∀ e ∈ new, e.1 = e.2.id) := by
  intro ps
  induction ps with
  | nil =>
    intro c stks hbound hc1 hc2 hkeys
    refine ⟨_, rfl, by norm_num, [], by simp, rfl, by simp, ?_, by simp⟩
    intro i hi
    simp at hi
  | cons p t ih =>
    intro c stks hbound hc1 hc2 hkeys
    obtain ⟨hp1, hp2⟩ := hbound p (List.mem_cons_self p t)
    have hname : STARTING_STATION_NAMES.get? p =
        some (STARTING_STATION_NAMES.get ⟨p, hp1⟩) := List.get?_eq_get hp1
    have hpair : els.get? p = some (els.get ⟨p, hp2⟩) := List.get?_eq_get hp2
    have hlen : (p :: t).length = t.length + 1 := rfl
    have hstep := stationStep_eq terra_pos els stks p _ _ c hname hpair hc1
      (by rw [hlen] at hc2; omega) hkeys
    obtain ⟨out, hfold, hgen, new, hnew, hlen2, hids, hshape, hpairs⟩ :=
      ih (c + 8) (stks ++ [({ val := c },
          startingStation (STARTING_STATION_NAMES.get ⟨p, hp1⟩)
            (terra_pos.add (els.get ⟨p, hp2⟩).1) (els.get ⟨p, hp2⟩).2 p c)])
        (fun q hq => hbound q (List.mem_cons_of_mem p hq))
        (by omega) (by rw [hlen] at hc2; omega)
        (by
          intro e he
          rcases List.mem_append.mp he with h3 | h3
          · have := hkeys e h3
            omega
          · rw [List.mem_singleton.mp h3]
            simp)
    refine ⟨out, ?_, ?_, ({ val := c },
        startingStation (STARTING_STATION_NAMES.get ⟨p, hp1⟩)
          (terra_pos.add (els.get ⟨p, hp2⟩).1) (els.get ⟨p, hp2⟩).2 p c) :: new,
      ?_, ?_, ?_, ?_, ?_⟩
    · rw [foldOpt_cons, hstep, Option.some_bind]
      exact hfold
    · rw [hgen, hlen]
      congr 1
      omega
    · rw [hnew]
      simp
    · simp [hlen2, hlen]
    · rw [List.flatMap_cons, hids, startingStation_allIds]
      have h8 : 8 * (p :: t).length = 8 + 8 * t.length := by rw [hlen]; omega
      rw [h8, mapRange_add, range8_map]
    · intro i hi hi2
      cases i with
      | zero =>
        simpa using startingStation_shape terra_pos els p c _ _ hname hpair
      | succ j =>
        have hj : j < t.length := by
          rw [hlen] at hi
          omega
        have hj2 : j < new.length := by omega
        have := hshape j hj hj2
        simpa using this
    · intro e he
      rcases List.mem_cons.mp he with h3 | h3
      · rw [h3]
        rfl
      · exact hpairs e h3

lemma els_spec (n : ℕ) (h2 : 2 ≤ n) (h6 : n ≤ 6) :
    ∃ els, starting_station_orbital_elements n = some els ∧ els.length = n := by
  interval_cases n
  · exact ⟨_, rfl, rfl⟩
  · exact ⟨_, rfl, rfl⟩
  · exact ⟨_, rfl, rfl⟩
  · exact ⟨_, rfl, rfl⟩
  · exact ⟨_, rfl, rfl⟩

lemma map_ids_eq {new : List (EntityId × MinorBody)} (h : ∀ e ∈ new, e.1 = e.2.id) :
    new.map (fun e => e.2.id.val) = new.map (fun e => e.1.val) :=
  List.map_congr_left (fun e he => by rw [← h e he])

lemma mapRange_glue (c a b d : ℕ) (h : d = c + a) :
    (List.range a).map (fun i => c + i) ++ (List.range b).map (fun i => d + i) =
      (List.range (a + b)).map (fun i => c + i) := by
  subst h
  exact (mapRange_add c a b).symm

lemma mapRange_glue3 (c a b d : ℕ) {rest : List ℕ} (h : d = c + a) :
    (List.range a).map (fun i => c + i) ++ ((List.range b).map (fun i => d + i) ++ rest) =
      (List.range (a + b)).map (fun i => c + i) ++ rest := by
  rw [← List.append_assoc, mapRange_glue c a b d h]

lemma range10_map : (List.range 10).map (fun i => 1 + i) =
    [1, 2, 3, 4, 5, 6, 7, 8, 9, 10] := by
  have h : List.range 10 = [0, 1, 2, 3, 4, 5, 6, 7, 8, 9] := rfl
  rw [h]
  norm_num

lemma range2_map : (List.range 2).map (fun i => 11 + i) = [11, 12] := by
  have h : List.range 2 = [0, 1] := rfl
  rw [h]
  norm_num

lemma generation_spec (stream : RandomStream) (n : ℕ) (h2 : 2 ≤ n) (h6 : n ≤ 6) :
    ∃ st g' k, GameState.new stream n EntityIdGenerator.new = some (st, g') ∧
      g' = { next_id := 1 + k } ∧
      st.allIds = (List.range k).map (fun i => 1 + i) ∧
      st.phase = Phase.economic ∧ st.warheads = [] ∧
      ∃ els, starting_station_orbital_elements n = some els ∧ els.length = n ∧
        st.stacks'.length = n ∧
        ∀ i (hi : i < st.stacks'.length),
          StationShape terra_position els i ((st.stacks'.get ⟨i, hi⟩).2) := by
  obtain ⟨els, hels, hlen⟩ := els_spec n h2 h6
  obtain ⟨s1, k1, hfold1, hk1, hgen1, hstream1, new1, hmin1, hids1, hpair1, hkeys1⟩ :=
    foldOpt_fwd beltStep_fwd beltCells
      { rng := { stream := stream, angleIdx := 4, resourceIdx := 0 }, ang := { last := 0 },
        gen := { next_id := 13 },
        minor_bodies := [
          ({ val := 11 },
           { name := "Phobos", id := { val := 11 },
             position := (Position.fromRect
               (24 * Real.cos (stream.angleAt 2), 24 * Real.sin (stream.angleAt 2))).add
               { q := 0, r := -2 },
             radius := 2 / 10, ice_abundance := 1, ore_abundance := 0 }),
          ({ val := 12 },
           { name := "Deimos", id := { val := 12 },
             position := (Position.fromRect
               (24 * Real.cos (stream.angleAt 2), 24 * Real.sin (stream.angleAt 2))).add
               { q := 3, r := 0 },
             radius := 2 / 10, ice_abundance := 1, ore_abundance := 0 })] }
      (by norm_num)
      (show (13 : ℕ) + beltCells.length < U64_SIZE by
        have hb := beltCells_length_le
        rw [U64_SIZE_eq]
        omega)
      (by
        intro e he
        simp only [List.mem_cons, List.not_mem_nil, or_false] at he
        rcases he with rfl | rfl <;> norm_num)
  have hg1 : s1.gen.next_id = 13 + k1 := hgen1
  have hst1 : s1.rng.stream = stream := hstream1
  have hk1b : k1 ≤ 5329 := le_trans hk1 beltCells_length_le
  obtain ⟨s2, k2, hfold2, hk2, hgen2, hstream2, new2, hmin2, hids2, hpair2, hkeys2⟩ :=
    foldOpt_fwd (clusterStep_fwd (stream.angleAt 3) (Real.pi / 3)) (clusterCands 38 42) s1
      (by omega)
      (by
        rw [clusterCands_38_42_length, U64_SIZE_eq]
        omega)
      hkeys1
  have hk2b : k2 ≤ 155 := le_trans hk2 (le_of_eq clusterCands_38_42_length)
  obtain ⟨s3, k3, hfold3, hk3, hgen3, hstream3, new3, hmin3, hids3, hpair3, hkeys3⟩ :=
    foldOpt_fwd (clusterStep_fwd (stream.angleAt 3) (-(Real.pi / 3))) (clusterCands 38 42) s2
      (by omega)
      (by
        rw [clusterCands_38_42_length, U64_SIZE_eq]
        omega)
      hkeys2
  have hk3b : k3 ≤ 155 := le_trans hk3 (le_of_eq clusterCands_38_42_length)
  obtain ⟨s4, k4, hfold4, hk4, hgen4, hstream4, new4, hmin4, hids4, hpair4, hkeys4⟩ :=
    foldOpt_fwd (clusterStep_fwd (stream.angleAt 3) Real.pi) (clusterCands 32 37) s3
      (by omega)
      (by
        rw [clusterCands_32_37_length, U64_SIZE_eq]
        omega)
      hkeys3
  have hk4b : k4 ≤ 186 := le_trans hk4 (le_of_eq clusterCands_32_37_length)
  have hg2 : s2.gen.next_id = 13 + k1 + k2 := by rw [hgen2, hg1]
  have hg3 : s3.gen.next_id = 13 + k1 + k2 + k3 := by rw [hgen3, hg2]
  obtain ⟨rng4, ang4, ⟨c4⟩, minors4⟩ := s4
  have hc4 : c4 = s3.gen.next_id + k4 := hgen4
  rw [hg3] at hc4
  have hmin4b : minors4 = s3.minor_bodies ++ new4 := hmin4
  have hids1b : new1.map (fun e => e.1.val) = (List.range k1).map (fun i => 13 + i) := hids1
  have hids2b := hids2
  rw [hg1] at hids2b
  have hids3b := hids3
  rw [hg2] at hids3b
  have hids4b := hids4
  rw [hg3] at hids4b
  obtain ⟨out5, hfold5, hgen5, new5, hnew5, hlen5, hids5, hshape5, hpairs5⟩ :=
    genStacks_fold terra_position els (List.range n) c4 []
      (by
        intro p hp
        have hpn := List.mem_range.mp hp
        constructor
        · show p < 6
          omega
        · omega)
      (by omega)
      (by
        rw [List.length_range, U64_SIZE_eq]
        omega)
      (by intro e he; simp at he)
  obtain ⟨gen5, stks5⟩ := out5
  have hnew5b : stks5 = [] ++ new5 := hnew5
  rw [List.nil_append] at hnew5b
  subst hnew5b
  have hgen5b : gen5 = { next_id := c4 + 8 * (List.range n).length } := hgen5
  rw [List.length_range] at hgen5b
  subst hgen5b
  have hmain : GameState.new stream n EntityIdGenerator.new = some
      ({ major_bodies := [
          ({ val := 1 },
           { name := "Sol", id := { val := 1 }, position := { q := 0, r := 0 },
             radius := 8 / 10, colour := "#ffff00" }),
          ({ val := 2 },
           { name := "Mercury", id := { val := 2 },
             position := Position.fromRect
               (6 * Real.cos (stream.angleAt 0), 6 * Real.sin (stream.angleAt 0)),
             radius := 3 / 10, colour := "#404040" }),
          ({ val := 3 },
           { name := "Venus", id := { val := 3 },
             position := Position.fromRect
               (12 * Real.cos (stream.angleAt 1), 12 * Real.sin (stream.angleAt 1)),
             radius := 6 / 10, colour := "#ffc000" }),
          ({ val := 4 },
           { name := "Terra", id := { val := 4 }, position := terra_position,
             radius := 6 / 10, colour := "#0000ff" }),
          ({ val := 5 },
           { name := "Luna", id := { val := 5 },
             position := terra_position.add { q := 3, r := 2 }, radius := 4 / 10,
             colour := "#808080" }),
          ({ val := 6 },
           { name := "Mars", id := { val := 6 },
             position := Position.fromRect
               (24 * Real.cos (stream.angleAt 2), 24 * Real.sin (stream.angleAt 2)),
             radius := 5 / 10, colour := "#ff0000" }),
          ({ val := 7 },
           { name := "Jupiter", id := { val := 7 },
             position := Position.fromRect
               (40 * Real.cos (stream.angleAt 3), 40 * Real.sin (stream.angleAt 3)),
             radius := 8 / 10, colour := "#ffc000" }),
          ({ val := 8 },
           { name := "Europa", id := { val := 8 },
             position := (Position.fromRect
               (40 * Real.cos (stream.angleAt 3), 40 * Real.sin (stream.angleAt 3))).add
               { q := 0, r := 3 },
             radius := 3 / 10, colour := "#a0a0ff" }),
          ({ val := 9 },
           { name := "Callisto", id := { val := 9 },
             position := (Position.fromRect
               (40 * Real.cos (stream.angleAt 3), 40 * Real.sin (stream.angleAt 3))).add
               { q := -4, r := 0 },
             radius := 3 / 10, colour := "#404040" }),
          ({ val := 10 },
           { name := "Ganymede", id := { val := 10 },
             position := (Position.fromRect
               (40 * Real.cos (stream.angleAt 3), 40 * Real.sin (stream.angleAt 3))).add
               { q := 4, r := -2 },
             radius := 3 / 10, colour := "#404040" })],
         minor_bodies := minors4,
         stacks' := stks5, warheads := [], phase := Phase.economic },
       ({ next_id := c4 + 8 * n } : EntityIdGenerator)) := by
    unfold GameState.new
    rw [if_pos ⟨h2, h6⟩]
    simp only [genBodies_new_eq, Option.bind_eq_bind, Option.some_bind, mainBelt, trojans,
      greeks, hildas, genStacks, hfold1, hfold2, hfold3, hfold4, hels, hfold5]
  have hn5 : stks5.length = n := by rw [hlen5, List.length_range]
  refine ⟨_, _, 12 + k1 + k2 + k3 + k4 + 8 * n, hmain, ?_, ?_, rfl, rfl, els, hels, hlen, ?_, ?_⟩
  · simp only [EntityIdGenerator.mk.injEq]
    omega
  · have hids5b : stks5.flatMap (fun e => e.2.allIds) =
        (List.range (8 * n)).map (fun i => c4 + i) := by
      have h := hids5
      rw [List.length_range] at h
      exact h
    simp only [GameState.allIds]
    rw [hmin4b, hmin3, hmin2, hmin1, hids5b, hc4]
    simp only [List.map_append, List.map_cons, List.map_nil, List.append_nil]
    rw [map_ids_eq hpair1, map_ids_eq hpair2, map_ids_eq hpair3, map_ids_eq hpair4,
      hids1b, hids2b, hids3b, hids4b, ← range10_map, ← range2_map]
    simp only [List.append_assoc]
    rw [mapRange_glue3 1 10 2 11 (by omega), mapRange_glue3 1 (10 + 2) k1 13 (by omega),
      mapRange_glue3 1 (10 + 2 + k1) k2 (13 + k1) (by omega),
      mapRange_glue3 1 (10 + 2 + k1 + k2) k3 (13 + k1 + k2) (by omega),
      mapRange_glue3 1 (10 + 2 + k1 + k2 + k3) k4 (13 + k1 + k2 + k3) (by omega),
      mapRange_glue 1 (10 + 2 + k1 + k2 + k3 + k4) (8 * n) (13 + k1 + k2 + k3 + k4) (by omega),
      show 10 + 2 + k1 + k2 + k3 + k4 + 8 * n = 12 + k1 + k2 + k3 + k4 + 8 * n by omega]
  · show stks5.length = n
    exact hn5
  · intro i hi
    have hi2 : i < stks5.length := hi
    have h := hshape5 i (by rw [List.length_range]; omega) hi2
    show StationShape terra_position els i ((stks5.get ⟨i, hi2⟩).2)
    have hr : (List.range n).get ⟨i, by rw [List.length_range]; omega⟩ = i := by
      simp
    rw [hr] at h
    exact h

/-! ## The duplicate-position run: Mars at angle pi/3 -/

lemma sqrt3_gt : (1.71875 : ℝ) < Real.sqrt 3 := by
  have h : (1.71875 : ℝ) = Real.sqrt (1.71875 ^ 2) := (Real.sqrt_sq (by norm_num)).symm
  rw [h]
  exact Real.sqrt_lt_sqrt (by positivity) (by norm_num)

lemma sqrt3_lt : Real.sqrt 3 < 1.75 := by
  have h : (1.75 : ℝ) = Real.sqrt (1.75 ^ 2) := (Real.sqrt_sq (by norm_num)).symm
  rw [h]
  exact Real.sqrt_lt_sqrt (by norm_num) (by norm_num)

lemma round_8_sqrt3 : round ((8 : ℝ) * Real.sqrt 3) = (14 : ℤ) := by
  have h1 := sqrt3_gt
  have h2 := sqrt3_lt
  rw [round_eq]
  rw [Int.floor_eq_iff]
  constructor
  · push_cast
    nlinarith
  · push_cast
    nlinarith

lemma round_neg16_sqrt3 : round ((-16 : ℝ) * Real.sqrt 3) = (-28 : ℤ) := by
  have h1 := sqrt3_gt
  have h2 := sqrt3_lt
  rw [round_eq]
  rw [Int.floor_eq_iff]
  constructor
  · push_cast
    nlinarith
  · push_cast
    nlinarith

lemma rect_to_hex_mars : rect_to_hex 12 (12 * Real.sqrt 3) = (14, 14) := by
  have h1 := sqrt3_gt
  have h2 := sqrt3_lt
  simp only [rect_to_hex]
  rw [show Real.sqrt 3 * (12 : ℝ) - 1 / 3 * (12 * Real.sqrt 3) = 8 * Real.sqrt 3 by ring,
    show (2 : ℝ) / 3 * (12 * Real.sqrt 3) = 8 * Real.sqrt 3 by ring,
    show -((8 : ℝ) * Real.sqrt 3) - 8 * Real.sqrt 3 = (-16 : ℝ) * Real.sqrt 3 by ring,
    round_8_sqrt3, round_neg16_sqrt3]
  rw [if_neg (fun hc => lt_irrefl _ hc.1), if_neg]
  push_cast
  rw [abs_of_neg (by nlinarith), abs_of_pos (by nlinarith)]
  nlinarith

lemma mars_hex_dup :
    Position.fromRect (24 * Real.cos (dupStream.angleAt 2), 24 * Real.sin (dupStream.angleAt 2)) =
      { q := 14, r := 14 } := by
  show Position.fromRect (24 * Real.cos (Real.pi / 3), 24 * Real.sin (Real.pi / 3)) = _
  rw [Real.cos_pi_div_three, Real.sin_pi_div_three,
    show (24 : ℝ) * (1 / 2) = 12 by norm_num,
    show (24 : ℝ) * (Real.sqrt 3 / 2) = 12 * Real.sqrt 3 by ring]
  simp only [Position.fromRect, rect_to_hex_mars]

lemma deimos_position_dup :
    ((Position.fromRect
      (24 * Real.cos (dupStream.angleAt 2), 24 * Real.sin (dupStream.angleAt 2))).add
        { q := 3, r := 0 }) = { q := 17, r := 14 } := by
  rw [mars_hex_dup]
  simp [Position.add]

lemma dup_resource_value (i : ℕ) : dupStream.resourceValueAt i = 1 := rfl

lemma beltStep_emit {s : BeltState} {cell : ℤ × ℤ}
    (hdist : ¬ ((cell.1.natAbs + cell.2.natAbs + (cell.1 + cell.2).natAbs) / 2 < 29))
    (hstream : s.rng.stream = dupStream)
    (h1 : 1 ≤ s.gen.next_id) (h2 : s.gen.next_id + 1 < U64_SIZE)
    (hkeys : ∀ e ∈ s.minor_bodies, e.1.val < s.gen.next_id) :
    ∃ s' b, beltStep s cell = some s' ∧
      s'.rng.stream = s.rng.stream ∧ s'.gen.next_id = s.gen.next_id + 1 ∧
      s'.minor_bodies = s.minor_bodies ++ [({ val := s.gen.next_id }, b)] ∧
      b.position = { q := cell.1, r := cell.2 } ∧ b.id = { val := s.gen.next_id } := by
  have hval : ∀ i, s.rng.stream.resourceValueAt i = 1 := by
    rw [hstream]
    exact dup_resource_value
  have hnext := next_eq' s.gen (by omega) h2
  refine
    ⟨{ rng := { stream := s.rng.stream, angleIdx := s.rng.angleIdx,
                resourceIdx := s.rng.resourceIdx + 1 + 1 },
       ang := (s.ang.next).2, gen := { next_id := s.gen.next_id + 1 },
       minor_bodies := s.minor_bodies ++
         [({ val := s.gen.next_id },
           { name := (s.ang.next).1, id := { val := s.gen.next_id },
             position := { q := cell.1, r := cell.2 }, radius := 2 / 10,
             ice_abundance := 1, ore_abundance := 1 })] },
     { name := (s.ang.next).1, id := { val := s.gen.next_id },
       position := { q := cell.1, r := cell.2 }, radius := 2 / 10,
       ice_abundance := 1, ore_abundance := 1 },
     ?_, rfl, rfl, rfl, rfl, rfl⟩
  unfold beltStep
  rw [if_neg hdist]
  simp only [Rng.sampleResource, hval]
  rw [if_neg (by norm_num)]
  simp only [MinorBody.new, hnext]
  rw [insertEntity_fresh (not_mem_keys_of_lt hkeys)]

lemma GameState.new_eq_composed {stream : RandomStream} {n : ℕ} (hn : 2 ≤ n ∧ n ≤ 6)
    {s1 s2 s3 s4 : BeltState} {els : List (Displacement × Displacement)} {out5 : StacksState}
    (hfold1 : foldOpt beltStep
      { rng := { stream := stream, angleIdx := 4, resourceIdx := 0 }, ang := { last := 0 },
        gen := { next_id := 13 },
        minor_bodies := [
          ({ val := 11 },
           { name := "Phobos", id := { val := 11 },
             position := (Position.fromRect
               (24 * Real.cos (stream.angleAt 2), 24 * Real.sin (stream.angleAt 2))).add
               { q := 0, r := -2 },
             radius := 2 / 10, ice_abundance := 1, ore_abundance := 0 }),
          ({ val := 12 },
           { name := "Deimos", id := { val := 12 },
             position := (Position.fromRect
               (24 * Real.cos (stream.angleAt 2), 24 * Real.sin (stream.angleAt 2))).add
               { q := 3, r := 0 },
             radius := 2 / 10, ice_abundance := 1, ore_abundance := 0 })] }
      beltCells = some s1)
    (hfold2 : foldOpt (clusterStep (stream.angleAt 3) (Real.pi / 3)) s1 (clusterCands 38 42)
      = some s2)
    (hfold3 : foldOpt (clusterStep (stream.angleAt 3) (-(Real.pi / 3))) s2 (clusterCands 38 42)
      = some s3)
    (hfold4 : foldOpt (clusterStep (stream.angleAt 3) Real.pi) s3 (clusterCands 32 37)
      = some s4)
    (hels : starting_station_orbital_elements n = some els)
    (hfold5 : foldOpt (stationStep terra_position els)
      { gen := s4.gen, stacks' := [] } (List.range n) = some out5) :
    GameState.new stream n EntityIdGenerator.new = some
      ({ major_bodies := [
          ({ val := 1 },
           { name := "Sol", id := { val := 1 }, position := { q := 0, r := 0 },
             radius := 8 / 10, colour := "#ffff00" }),
          ({ val := 2 },
           { name := "Mercury", id := { val := 2 },
             position := Position.fromRect
               (6 * Real.cos (stream.angleAt 0), 6 * Real.sin (stream.angleAt 0)),
             radius := 3 / 10, colour := "#404040" }),
          ({ val := 3 },
           { name := "Venus", id := { val := 3 },
             position := Position.fromRect
               (12 * Real.cos (stream.angleAt 1), 12 * Real.sin (stream.angleAt 1)),
             radius := 6 / 10, colour := "#ffc000" }),
          ({ val := 4 },
           { name := "Terra", id := { val := 4 }, position := terra_position,
             radius := 6 / 10, colour := "#0000ff" }),
          ({ val := 5 },
           { name := "Luna", id := { val := 5 },
             position := terra_position.add { q := 3, r := 2 }, radius := 4 / 10,
             colour := "#808080" }),
          ({ val := 6 },
           { name := "Mars", id := { val := 6 },
             position := Position.fromRect
               (24 * Real.cos (stream.angleAt 2), 24 * Real.sin (stream.angleAt 2)),
             radius := 5 / 10, colour := "#ff0000" }),
          ({ val := 7 },
           { name := "Jupiter", id := { val := 7 },
             position := Position.fromRect
               (40 * Real.cos (stream.angleAt 3), 40 * Real.sin (stream.angleAt 3)),
             radius := 8 / 10, colour := "#ffc000" }),
          ({ val := 8 },
           { name := "Europa", id := { val := 8 },
             position := (Position.fromRect
               (40 * Real.cos (stream.angleAt 3), 40 * Real.sin (stream.angleAt 3))).add
               { q := 0, r := 3 },
             radius := 3 / 10, colour := "#a0a0ff" }),
          ({ val := 9 },
           { name := "Callisto", id := { val := 9 },
             position := (Position.fromRect
               (40 * Real.cos (stream.angleAt 3), 40 * Real.sin (stream.angleAt 3))).add
               { q := -4, r := 0 },
             radius := 3 / 10, colour := "#404040" }),
          ({ val := 10 },
           { name := "Ganymede", id := { val := 10 },
             position := (Position.fromRect
               (40 * Real.cos (stream.angleAt 3), 40 * Real.sin (stream.angleAt 3))).add
               { q := 4, r := -2 },
             radius := 3 / 10, colour := "#404040" })],
         minor_bodies := s4.minor_bodies,
         stacks' := out5.stacks', warheads := [], phase := Phase.economic },
       out5.gen) := by
  unfold GameState.new
  rw [if_pos hn]
  simp only [genBodies_new_eq, Option.bind_eq_bind, Option.some_bind, mainBelt, trojans,
    greeks, hildas, genStacks, hfold1, hfold2, hfold3, hfold4, hels, hfold5]

/-- C6: REFUTED. In the world generated from the stream whose every angle
draw is pi/3 and whose every abundance draw is 1, Mars lands on hex
(14, 14), so Deimos (Mars plus displacement (3, 0)) sits at (17, 14) -
hex distance 31 from the origin, inside the main-belt annulus. The belt
loop performs no position-uniqueness scan, so it emits an asteroid at the
lattice cell (17, 14) as well: the generated world holds two distinct
minor-body entries with equal positions. -/
theorem c6_minor_body_positions_collide :
    ∃ st g' e1 e2, GameState.new dupStream 2 EntityIdGenerator.new = some (st, g') ∧
      e1 ∈ st.minor_bodies ∧ e2 ∈ st.minor_bodies ∧ e1.1 ≠ e2.1 ∧
      e1.2.position = e2.2.position := by
  obtain ⟨els, hels, hlen⟩ := els_spec 2 (by norm_num) (by norm_num)
  have hmem : ((17 : ℤ), (14 : ℤ)) ∈ beltCells := beltCells_mem.mpr (by norm_num)
  obtain ⟨l1, l2, hsplit⟩ := List.append_of_mem hmem
  have hlenEq : l1.length + (l2.length + 1) = beltCells.length := by
    rw [hsplit, List.length_append, List.length_cons]
  have hbelt := beltCells_length_le
  obtain ⟨sa, ka, hfoldA, hkA, hgenA, hstreamA, newA, hminA, hidsA, hpairA, hkeysA⟩ :=
    foldOpt_fwd beltStep_fwd l1
      { rng := { stream := dupStream, angleIdx := 4, resourceIdx := 0 }, ang := { last := 0 },
        gen := { next_id := 13 },
        minor_bodies := [
          ({ val := 11 },
           { name := "Phobos", id := { val := 11 },
             position := (Position.fromRect
               (24 * Real.cos (dupStream.angleAt 2), 24 * Real.sin (dupStream.angleAt 2))).add
               { q := 0, r := -2 },
             radius := 2 / 10, ice_abundance := 1, ore_abundance := 0 }),
          ({ val := 12 },
           { name := "Deimos", id := { val := 12 },
             position := (Position.fromRect
               (24 * Real.cos (dupStream.angleAt 2), 24 * Real.sin (dupStream.angleAt 2))).add
               { q := 3, r := 0 },
             radius := 2 / 10, ice_abundance := 1, ore_abundance := 0 })] }
      (by norm_num)
      (show (13 : ℕ) + l1.length < U64_SIZE by
        rw [U64_SIZE_eq]
        omega)
      (by
        intro e he
        simp only [List.mem_cons, List.not_mem_nil, or_false] at he
        rcases he with rfl | rfl <;> norm_num)
  have hgA : sa.gen.next_id = 13 + ka := hgenA
  have hstA : sa.rng.stream = dupStream := hstreamA
  have hkAb : ka ≤ l1.length := hkA
  obtain ⟨sb, bDup, hstepB, hstreamB, hgenB, hminB, hposB, hidB⟩ :=
    @beltStep_emit sa (17, 14)
      (by norm_num)
      hstA
      (by omega)
      (by rw [U64_SIZE_eq]; omega)
      hkeysA
  obtain ⟨s1, kc, hfoldC, hkC, hgenC, hstreamC, newC, hminC, hidsC, hpairC, hkeysC⟩ :=
    foldOpt_fwd beltStep_fwd l2 sb
      (by omega)
      (by rw [U64_SIZE_eq]; omega)
      (by
        intro e he
        rw [hminB] at he
        rcases List.mem_append.mp he with h | h
        · have := hkeysA e h
          omega
        · rw [List.mem_singleton] at h
          subst h
          simp only
          omega)
  have hfold1 : foldOpt beltStep
      { rng := { stream := dupStream, angleIdx := 4, resourceIdx := 0 }, ang := { last := 0 },
        gen := { next_id := 13 },
        minor_bodies := [
          ({ val := 11 },
           { name := "Phobos", id := { val := 11 },
             position := (Position.fromRect
               (24 * Real.cos (dupStream.angleAt 2), 24 * Real.sin (dupStream.angleAt 2))).add
               { q := 0, r := -2 },
             radius := 2 / 10, ice_abundance := 1, ore_abundance := 0 }),
          ({ val := 12 },
           { name := "Deimos", id := { val := 12 },
             position := (Position.fromRect
               (24 * Real.cos (dupStream.angleAt 2), 24 * Real.sin (dupStream.angleAt 2))).add
               { q := 3, r := 0 },
             radius := 2 / 10, ice_abundance := 1, ore_abundance := 0 })] }
      beltCells = some s1 := by
    rw [hsplit, foldOpt_append, hfoldA, Option.some_bind, foldOpt_cons, hstepB,
      Option.some_bind, hfoldC]
  obtain ⟨s2, k2, hfold2, hk2, hgen2, hstream2, new2, hmin2, hids2, hpair2, hkeys2⟩ :=
    foldOpt_fwd (clusterStep_fwd (dupStream.angleAt 3) (Real.pi / 3)) (clusterCands 38 42) s1
      (by omega)
      (by
        rw [clusterCands_38_42_length, U64_SIZE_eq]
        omega)
      hkeysC
  have hk2b : k2 ≤ 155 := le_trans hk2 (le_of_eq clusterCands_38_42_length)
  obtain ⟨s3, k3, hfold3, hk3, hgen3, hstream3, new3, hmin3, hids3, hpair3, hkeys3⟩ :=
    foldOpt_fwd (clusterStep_fwd (dupStream.angleAt 3) (-(Real.pi / 3))) (clusterCands 38 42) s2
      (by omega)
      (by
        rw [clusterCands_38_42_length, U64_SIZE_eq]
        omega)
      hkeys2
  have hk3b : k3 ≤ 155 := le_trans hk3 (le_of_eq clusterCands_38_42_length)
  obtain ⟨s4, k4, hfold4, hk4, hgen4, hstream4, new4, hmin4, hids4, hpair4, hkeys4⟩ :=
    foldOpt_fwd (clusterStep_fwd (dupStream.angleAt 3) Real.pi) (clusterCands 32 37) s3
      (by omega)
      (by
        rw [clusterCands_32_37_length, U64_SIZE_eq]
        omega)
      hkeys3
  have hk4b : k4 ≤ 186 := le_trans hk4 (le_of_eq clusterCands_32_37_length)
  obtain ⟨out5, hfold5, hgen5, new5, hnew5, hlen5, hids5, hshape5, hpairs5⟩ :=
    genStacks_fold terra_position els (List.range 2) s4.gen.next_id []
      (by
        intro p hp
        have hpn := List.mem_range.mp hp
        constructor
        · show p < 6
          omega
        · omega)
      (by omega)
      (by
        rw [List.length_range, U64_SIZE_eq]
        omega)
      (by intro e he; simp at he)
  have hfold5b : foldOpt (stationStep terra_position els)
      { gen := s4.gen, stacks' := [] } (List.range 2) = some out5 := hfold5
  have hmain := GameState.new_eq_composed (n := 2) ⟨by norm_num, by norm_num⟩
    hfold1 hfold2 hfold3 hfold4 hels hfold5b
  refine ⟨_, _,
    ({ val := 12 },
     { name := "Deimos", id := { val := 12 },
       position := (Position.fromRect
         (24 * Real.cos (dupStream.angleAt 2), 24 * Real.sin (dupStream.angleAt 2))).add
         { q := 3, r := 0 },
       radius := 2 / 10, ice_abundance := 1, ore_abundance := 0 }),
    ({ val := sa.gen.next_id }, bDup), hmain, ?_, ?_, ?_, ?_⟩
  · show _ ∈ s4.minor_bodies
    rw [hmin4, hmin3, hmin2, hminC, hminB, hminA]
    apply List.mem_append_left
    apply List.mem_append_left
    apply List.mem_append_left
    apply List.mem_append_left
    apply List.mem_append_left
    simp
  · show _ ∈ s4.minor_bodies
    rw [hmin4, hmin3, hmin2, hminC, hminB]
    apply List.mem_append_left
    apply List.mem_append_left
    apply List.mem_append_left
    apply List.mem_append_left
    apply List.mem_append_right
    simp
  · simp only [ne_eq, Prod.mk.injEq, EntityId.mk.injEq]
    intro hcontra
    omega
  · show ((Position.fromRect
      (24 * Real.cos (dupStream.angleAt 2), 24 * Real.sin (dupStream.angleAt 2))).add
        { q := 3, r := 0 }) = bDup.position
    rw [deimos_position_dup, hposB]

/-! ## Remaining claims and witnesses -/

/-- C2: generation fails (returns `none`, modelling the assert) for every
player count outside 2..6, whatever the stream and whatever the allocator
state - the guard runs before any allocation or draw - and succeeds for
every count in 2..6 from a fresh allocator. -/
theorem c2_player_count_guard (n : ℕ) :
    ((n < 2 ∨ 6 < n) → ∀ stream g, GameState.new stream n g = none) ∧
    (2 ≤ n → n ≤ 6 → ∀ stream, ∃ st g',
      GameState.new stream n EntityIdGenerator.new = some (st, g')) := by
  constructor
  · intro h stream g
    unfold GameState.new
    rw [if_neg (by omega : ¬(2 ≤ n ∧ n ≤ 6))]
  · intro h2 h6 stream
    obtain ⟨st, g', k, hnew, -⟩ := generation_spec stream n h2 h6
    exact ⟨st, g', hnew⟩

/-- C3: generation is deterministic - it is a pure function of the random
stream, the player count and the allocator state, so two runs with equal
inputs produce equal snapshots and equal final allocator cursors. -/
theorem c3_generation_deterministic (stream1 stream2 : RandomStream) (n1 n2 : ℕ)
    (g1 g2 : EntityIdGenerator) (hs : stream1 = stream2) (hn : n1 = n2) (hg : g1 = g2) :
    GameState.new stream1 n1 g1 = GameState.new stream2 n2 g2 := by
  rw [hs, hn, hg]

theorem c3_generation_deterministic_witness :
    constStream = constStream ∧ (2 : ℕ) = 2 ∧
    (EntityIdGenerator.new = EntityIdGenerator.new) ∧
    GameState.new constStream 2 EntityIdGenerator.new =
      GameState.new constStream 2 EntityIdGenerator.new :=
  ⟨rfl, rfl, rfl,
   c3_generation_deterministic constStream constStream 2 2
     EntityIdGenerator.new EntityIdGenerator.new rfl rfl rfl⟩

theorem c5_minor_body_abundance_nonzero_witness :
    ∃ st g', GameState.new constStream 2 EntityIdGenerator.new = some (st, g') ∧
      ∀ e ∈ st.minor_bodies, 0 < e.2.ice_abundance ∨ 0 < e.2.ore_abundance := by
  obtain ⟨st, g', k, hnew, -⟩ := generation_spec constStream 2 (by norm_num) (by norm_num)
  exact ⟨st, g', hnew, c5_minor_body_abundance_nonzero hnew⟩

lemma mainBelt_total (stream : RandomStream) :
    ∃ s', mainBelt
      { rng := { stream := stream, angleIdx := 0, resourceIdx := 0 },
        ang := { last := 0 }, gen := { next_id := 1 }, minor_bodies := [] } = some s' := by
  obtain ⟨s', k, hfold, -, -, -, -⟩ :=
    foldOpt_fwd beltStep_fwd beltCells
      { rng := { stream := stream, angleIdx := 0, resourceIdx := 0 },
        ang := { last := 0 }, gen := { next_id := 1 }, minor_bodies := [] }
      (by norm_num)
      (show (1 : ℕ) + beltCells.length < U64_SIZE by
        have := beltCells_length_le
        rw [U64_SIZE_eq]
        omega)
      (by intro e he; simp at he)
  exact ⟨s', hfold⟩

theorem c7_main_belt_annulus_witness :
    ∃ s', mainBelt
      { rng := { stream := constStream, angleIdx := 0, resourceIdx := 0 },
        ang := { last := 0 }, gen := { next_id := 1 }, minor_bodies := [] } = some s' ∧
      ∀ e ∈ s'.minor_bodies,
        29 ≤ Displacement.norm { q := e.2.position.q, r := e.2.position.r } ∧
        Displacement.norm { q := e.2.position.q, r := e.2.position.r } ≤ 36 := by
  obtain ⟨s', hfold⟩ := mainBelt_total constStream
  exact ⟨s', hfold, fun e he => c7_main_belt_annulus hfold e he (List.not_mem_nil e)⟩
/-- C8: a successful generation from a fresh allocator with a valid player
count n creates exactly n stacks, and the i-th is the starting station of
player i: owned by player i, named from the roster, placed at the home
world position plus the i-th table offset with the paired velocity, with
exactly one factory, one habitat owned by player i, two fuel tanks at 20
fuel and three cargo holds at 20 materials. -/
theorem c8_starting_stations {stream : RandomStream} {n : ℕ} {st : GameState}
    {g' : EntityIdGenerator} (h2 : 2 ≤ n) (h6 : n ≤ 6)
    (h : GameState.new stream n EntityIdGenerator.new = some (st, g')) :
    st.stacks'.length = n ∧
    ∃ els, starting_station_orbital_elements n = some els ∧
      ∀ i (hi : i < st.stacks'.length),
        StationShape terra_position els i ((st.stacks'.get ⟨i, hi⟩).2) := by
  obtain ⟨st2, g2, k, hnew, -, -, -, -, els, hels, hlen, hslen, hshape⟩ :=
    generation_spec stream n h2 h6
  rw [h] at hnew
  have hpq := Option.some.inj hnew
  have hst : st = st2 := congrArg Prod.fst hpq
  subst hst
  exact ⟨hslen, els, hels, hshape⟩

theorem c8_starting_stations_witness :
    (2 : ℕ) ≤ 4 ∧ (4 : ℕ) ≤ 6 ∧
    ∃ st g', GameState.new constStream 4 EntityIdGenerator.new = some (st, g') ∧
      st.stacks'.length = 4 ∧
      ∃ els, starting_station_orbital_elements 4 = some els ∧
        ∀ i (hi : i < st.stacks'.length),
          StationShape terra_position els i ((st.stacks'.get ⟨i, hi⟩).2) := by
  obtain ⟨st, g', k, hnew, -⟩ := generation_spec constStream 4 (by norm_num) (by norm_num)
  have hc := c8_starting_stations (by norm_num) (by norm_num) hnew
  exact ⟨by norm_num, by norm_num, st, g', hnew, hc.1, hc.2⟩

/-- C9: all entity ids appearing anywhere in a snapshot generated from a
fresh allocator - major bodies, minor bodies, stacks and every component
inside every stack - are pairwise distinct. -/
theorem c9_entity_ids_unique {stream : RandomStream} {n : ℕ} {st : GameState}
    {g' : EntityIdGenerator} (h2 : 2 ≤ n) (h6 : n ≤ 6)
    (h : GameState.new stream n EntityIdGenerator.new = some (st, g')) :
    st.allIds.Nodup := by
  obtain ⟨st2, g2, k, hnew, -, hids, -⟩ := generation_spec stream n h2 h6
  rw [h] at hnew
  have hpq := Option.some.inj hnew
  have hst : st = st2 := congrArg Prod.fst hpq
  subst hst
  rw [hids]
  exact (List.nodup_range k).map (fun a b hab => by omega)

theorem c9_entity_ids_unique_witness :
    (2 : ℕ) ≤ 2 ∧ (2 : ℕ) ≤ 6 ∧
    ∃ st g', GameState.new constStream 2 EntityIdGenerator.new = some (st, g') ∧
      st.allIds.Nodup := by
  obtain ⟨st, g', k, hnew, -⟩ := generation_spec constStream 2 (by norm_num) (by norm_num)
  exact ⟨by norm_num, by norm_num, st, g', hnew,
    c9_entity_ids_unique (by norm_num) (by norm_num) hnew⟩

/-- C10: every component placed in a starting station by a successful
generation from a fresh allocator is undamaged, and every starting cargo
hold carries zero ice, zero ore and zero warheads alongside its 20
materials. -/
theorem c10_station_components_pristine {stream : RandomStream} {n : ℕ} {st : GameState}
    {g' : EntityIdGenerator} (h2 : 2 ≤ n) (h6 : n ≤ 6)
    (h : GameState.new stream n EntityIdGenerator.new = some (st, g')) :
    ∀ s ∈ st.stacks',
      (∀ e ∈ s.2.factories, e.2.damaged = false) ∧
      (∀ e ∈ s.2.habitats, e.2.damaged = false) ∧
      (∀ e ∈ s.2.fuel_tanks, e.2.damaged = false ∧ e.2.fuel = 20) ∧
      (∀ e ∈ s.2.cargo_holds, e.2.damaged = false ∧ e.2.inventory.ice = 0 ∧
        e.2.inventory.ore = 0 ∧ e.2.inventory.materials = 20 ∧
        e.2.inventory.warheads = 0) := by
  obtain ⟨st2, g2, k, hnew, -, -, -, -, els, hels, hlen, hslen, hshape⟩ :=
    generation_spec stream n h2 h6
  rw [h] at hnew
  have hpq := Option.some.inj hnew
  have hst : st = st2 := congrArg Prod.fst hpq
  subst hst
  intro s hs
  obtain ⟨i, hget⟩ := List.mem_iff_get.mp hs
  have hsh : StationShape terra_position els i.val s.2 := by
    rw [← hget]
    exact hshape i.val i.isLt
  obtain ⟨-, -, -, -, -, -, -, hfac, hhab, hfuel, hcargo, -⟩ := hsh
  refine ⟨hfac, fun e he => (hhab e he).2, fun e he => ⟨(hfuel e he).2, (hfuel e he).1⟩,
    fun e he => ⟨(hcargo e he).2, ?_, ?_, ?_, ?_⟩⟩
  · rw [(hcargo e he).1]
    rfl
  · rw [(hcargo e he).1]
    rfl
  · rw [(hcargo e he).1]
    rfl
  · rw [(hcargo e he).1]
    rfl

theorem c10_station_components_pristine_witness :
    (2 : ℕ) ≤ 2 ∧ (2 : ℕ) ≤ 6 ∧
    ∃ st g', GameState.new constStream 2 EntityIdGenerator.new = some (st, g') ∧
      ∀ s ∈ st.stacks',
        (∀ e ∈ s.2.factories, e.2.damaged = false) ∧
        (∀ e ∈ s.2.habitats, e.2.damaged = false) ∧
        (∀ e ∈ s.2.fuel_tanks, e.2.damaged = false ∧ e.2.fuel = 20) ∧
        (∀ e ∈ s.2.cargo_holds, e.2.damaged = false ∧ e.2.inventory.ice = 0 ∧
          e.2.inventory.ore = 0 ∧ e.2.inventory.materials = 20 ∧
          e.2.inventory.warheads = 0) := by
  obtain ⟨st, g', k, hnew, -⟩ := generation_spec constStream 2 (by norm_num) (by norm_num)
  exact ⟨by norm_num, by norm_num, st, g', hnew,
    c10_station_components_pristine (by norm_num) (by norm_num) hnew⟩
